import Mathlib

/-
Verification of the phone-number core in src/phonenumberutil.go
(package libphonenumber).

Modelling conventions, used throughout:

* A Go `string` (or `[]byte`, or the contents of a `bytes.Buffer`) is a
  sequence of bytes; it is embedded as `GoStr := List Nat`, each element a
  byte value < 256.  Places where Go ranges over a string rune by rune
  (`for _, r := range s`) are embedded through an explicit UTF-8 decoder,
  matching Go's semantics (invalid sequences decode to U+FFFD consuming one
  byte).
* Go `panic` and runtime errors (index out of range, slice bounds, nil map
  writes, `proto.Merge` into a nil destination) are made explicit with the
  `GoResult` type: `.ok v` is a normal return, `.panicked msg` an escaped
  panic.
* Compiled regular expressions (`*regexp.Regexp`) coming from metadata
  strings are embedded as a record of the operations the code calls on them
  (`CompiledRegex`).  The regular expressions built from the constant
  pattern strings of phonenumberutil.go are embedded as dedicated Lean
  functions, each documented with the pattern it implements.
* The protocol-buffer types (PhoneNumber, PhoneMetadata, ...) and the
  metadata registry (CountryCodeToRegion, the metadata blob) are declared in
  repository files that are not under src/; they are modelled from the
  spec where so marked.
-/

namespace PNU

/-- A Go string: its sequence of bytes (each < 256). -/
abbrev GoStr := List Nat

/-- Go byte subtraction `c - 48` wraps modulo 256. -/
def goByteSub (c k : Nat) : Nat := (c + 256 - k % 256) % 256

/-- Decimal digit bytes of a natural number, as `strconv` produces them
(`natDigits 0 = "0"`).  Fuel-based so that the kernel can evaluate it. -/
def natDigitsAux : Nat → Nat → GoStr
  | 0, _ => []
  | fuel + 1, n => if n < 10 then [48 + n] else natDigitsAux fuel (n / 10) ++ [48 + n % 10]

/-- Decimal digit string of a natural number (`strconv.FormatUint(n, 10)`). -/
def natDigits (n : Nat) : GoStr := natDigitsAux (n + 1) n

/-- `strconv.AppendInt(..., i, 10)`: decimal digits with a leading '-' when
negative. -/
def appendInt (i : Int) : GoStr :=
  if i < 0 then 45 :: natDigits i.natAbs else natDigits i.toNat

/-- The value of a string of ASCII decimal digit bytes. -/
def digitsVal : GoStr → Nat → Nat
  | [], acc => acc
  | b :: rest, acc => digitsVal rest (acc * 10 + (b - 48))

/-- Is the byte an ASCII decimal digit. -/
def isAsciiDigit (b : Nat) : Bool := 48 ≤ b && b ≤ 57

/-- `strconv.Atoi` as the code uses it, with the error ignored
(`potentialCountryCode, _ = strconv.Atoi(...)`): the value of a non-empty
all-digit string, and 0 (the int zero value) when the string does not parse. -/
def goAtoi (s : GoStr) : Int :=
  if s ≠ [] ∧ s.all isAsciiDigit then (digitsVal s 0 : Int) else 0

/-- `strconv.ParseUint(s, 10, 64)` with the error ignored
(`val, _ := strconv.ParseUint(...)`): the value of a non-empty all-digit
string (clamped to the uint64 maximum, which ParseUint returns on range
error), and 0 on a syntax error. -/
def goParseUint64 (s : GoStr) : Nat :=
  if s ≠ [] ∧ s.all isAsciiDigit then
    min (digitsVal s 0) (2 ^ 64 - 1)
  else 0

/-- The eight big-endian bytes of a uint64, exactly as
`getNationalSignificantNumber` writes them
(`byte(natNum >> 56), ..., byte(natNum & 0xff)`). -/
def uint64BEBytes (n : Nat) : GoStr :=
  [n / 2 ^ 56 % 256, n / 2 ^ 48 % 256, n / 2 ^ 40 % 256, n / 2 ^ 32 % 256,
   n / 2 ^ 24 % 256, n / 2 ^ 16 % 256, n / 2 ^ 8 % 256, n % 256]

/-- Does `small` occur as a prefix of `big`. -/
def startsWithList : GoStr → GoStr → Bool
  | [], _ => true
  | _ :: _, [] => false
  | a :: as_, b :: bs => a = b && startsWithList as_ bs

/-- Does `small` occur as a suffix of `big` (`strings.HasSuffix`). -/
def endsWithList (small big : GoStr) : Bool :=
  startsWithList small.reverse big.reverse

/-- First byte index at which `pat` occurs as a sublist of `s`, if any. -/
def firstIndexOfSub (s pat : GoStr) : Option Nat :=
  go s 0
where
  go : GoStr → Nat → Option Nat
    | [], i => if startsWithList pat [] then some i else none
    | l@(_ :: rest), i => if startsWithList pat l then some i else go rest (i + 1)

/-- `strings.Index(s, pat)`: the byte index of the first occurrence, -1 when
there is none. -/
def goIndexOf (s pat : GoStr) : Int :=
  match firstIndexOfSub s pat with
  | some i => (i : Int)
  | none => -1

/-- Does `pat` occur anywhere in `s` (`strings.Contains`). -/
def containsSub (s pat : GoStr) : Bool := (firstIndexOfSub s pat).isSome

/-- A Go computation that either returns normally or escapes with a panic. -/
inductive GoResult (α : Type) where
  | ok (val : α)
  | panicked (msg : String)
deriving Repr, DecidableEq

/-- Go slice indexing `l[i]`: panics when out of range. -/
def goGet {α : Type} (l : List α) (i : Nat) : GoResult α :=
  match l.get? i with
  | some v => GoResult.ok v
  | none => GoResult.panicked "runtime error: index out of range"

/-- Go slicing `l[lo:hi]`: panics when the bounds are not ordered and within
the slice. -/
def goSlice (l : GoStr) (lo hi : Nat) : GoResult GoStr :=
  if lo ≤ hi ∧ hi ≤ l.length then GoResult.ok ((l.take hi).drop lo)
  else GoResult.panicked "runtime error: slice bounds out of range"

/-
UTF-8 decoding, as Go performs it when ranging over a string or when the
regexp engine reads input: a valid sequence decodes to its rune, anything
else decodes to U+FFFD (65533) consuming a single byte.
-/

/-- Is the byte a UTF-8 continuation byte (0x80..0xBF). -/
def isCont (b : Nat) : Bool := 128 ≤ b && b ≤ 191

/-- Decode one rune from the front of a byte string: the rune and the number
of bytes consumed (at least one). -/
def decodeRune : GoStr → Nat × Nat
  | [] => (65533, 1)
  | b0 :: rest =>
    if b0 < 128 then (b0, 1)
    else if 194 ≤ b0 ∧ b0 ≤ 223 then
      match rest with
      | b1 :: _ =>
        if isCont b1 then ((b0 - 192) * 64 + (b1 - 128), 2) else (65533, 1)
      | [] => (65533, 1)
    else if 224 ≤ b0 ∧ b0 ≤ 239 then
      match rest with
      | b1 :: b2 :: _ =>
        let lo1 := if b0 = 224 then 160 else 128
        let hi1 := if b0 = 237 then 159 else 191
        if (lo1 ≤ b1 && b1 ≤ hi1) && isCont b2 then
          ((b0 - 224) * 4096 + (b1 - 128) * 64 + (b2 - 128), 3)
        else (65533, 1)
      | _ => (65533, 1)
    else if 240 ≤ b0 ∧ b0 ≤ 244 then
      match rest with
      | b1 :: b2 :: b3 :: _ =>
        let lo1 := if b0 = 240 then 144 else 128
        let hi1 := if b0 = 244 then 143 else 191
        if (lo1 ≤ b1 && b1 ≤ hi1) && isCont b2 && isCont b3 then
          ((b0 - 240) * 262144 + (b1 - 128) * 4096 + (b2 - 128) * 64 + (b3 - 128), 4)
        else (65533, 1)
      | _ => (65533, 1)
    else (65533, 1)

/-- Decode a whole byte string to its rune sequence (fuel = byte length). -/
def decodeRunesAux : Nat → GoStr → List Nat
  | 0, _ => []
  | _, [] => []
  | fuel + 1, s =>
    let rn := decodeRune s
    rn.1 :: decodeRunesAux fuel (s.drop rn.2)

/-- The rune sequence of a byte string. -/
def decodeRunes (s : GoStr) : List Nat := decodeRunesAux s.length s

/-- The byte offsets at which runes start when `s` is decoded from the front
(0 included; the final offset `s.length` is not included). -/
def runeBoundariesAux : Nat → GoStr → Nat → List Nat
  | 0, _, _ => []
  | _, [], _ => []
  | fuel + 1, s, off =>
    let rn := decodeRune s
    off :: runeBoundariesAux fuel (s.drop rn.2) (off + rn.2)

/-- All byte offsets at which a rune of `s` starts, plus the end offset:
the positions at which Go's regexp engine can start or end a match. -/
def runeBoundaries (s : GoStr) : List Nat :=
  runeBoundariesAux s.length s 0 ++ [s.length]

/-- UTF-8 encode one rune (`WriteRune`; an out-of-range rune is written as
U+FFFD, as Go does). -/
def encodeRune (r : Nat) : GoStr :=
  if r < 128 then [r]
  else if r < 2048 then [192 + r / 64, 128 + r % 64]
  else if r < 65536 then [224 + r / 4096, 128 + r / 64 % 64, 128 + r % 64]
  else if r < 1114112 then
    [240 + r / 262144, 128 + r / 4096 % 64, 128 + r / 64 % 64, 128 + r % 64]
  else [239, 191, 189]

/-
Character classes used by the constant patterns of phonenumberutil.go.
-/

/-- Modelled from the spec: the decimal-digit characters the library
recognizes (spec §6, "Recognized characters"): ASCII digits, fullwidth
digits U+FF10–U+FF19 and Arabic-Indic digits U+0660–U+0669.  This stands for
the Unicode Nd property that Go's `\p{Nd}` (the DIGITS pattern) denotes; the
full Unicode table is data outside the repository sources. -/
def isNdRune (r : Nat) : Bool :=
  (48 ≤ r && r ≤ 57) || (65296 ≤ r && r ≤ 65305) || (1632 ≤ r && r ≤ 1641)

/-- The plus characters of PLUS_CHARS = "+＋" ('+' and U+FF0B). -/
def isPlusRune (r : Nat) : Bool := r = 43 || r = 65291

/-- An ASCII letter [A-Za-z]. -/
def isAsciiLetter (r : Nat) : Bool := (65 ≤ r && r ≤ 90) || (97 ≤ r && r ≤ 122)

/-- The runes of VALID_PUNCTUATION (dashes, white space, full stops, slashes,
brackets, parentheses, tildes, the letter 'x', and fullwidth variants). -/
def isValidPunctuation (r : Nat) : Bool :=
  r = 45 || r = 120 || (8208 ≤ r && r ≤ 8213) || r = 8722 || r = 12540 ||
  (65293 ≤ r && r ≤ 65295) || r = 32 || r = 160 || r = 173 || r = 8203 ||
  r = 8288 || r = 12288 || r = 40 || r = 41 || r = 65288 || r = 65289 ||
  r = 65339 || r = 65341 || r = 46 || r = 91 || r = 93 || r = 47 || r = 126 ||
  r = 8275 || r = 8764 || r = 65374

/-- VALID_PUNCTUATION or the star sign (the class `[punctuation*]` of
VALID_PHONE_NUMBER). -/
def isPunctOrStar (r : Nat) : Bool := isValidPunctuation r || r = 42

/-
The byte-level normalizers (lines 777-805 of phonenumberutil.go).
-/

/-- Embeds `normalizeDigits` (lines 784-797).  The Go code iterates over the
BYTES of the string (`for _, c := range buf` with `buf := []byte(number)`)
and keeps a byte `c` exactly when `c - 48 < 10` in wrapping byte arithmetic,
appending the original byte `c` unchanged; with `keepNonDigits` every other
byte is also appended unchanged. -/
def normalizeDigits (number : GoStr) (keepNonDigits : Bool) : GoStr :=
  match number with
  | [] => []
  | c :: rest =>
    let digit := goByteSub c 48
    if digit < 10 then c :: normalizeDigits rest keepNonDigits
    else if keepNonDigits then c :: normalizeDigits rest keepNonDigits
    else normalizeDigits rest keepNonDigits

/-- Embeds `normalizeDigitsOnly` (lines 777-779). -/
def normalizeDigitsOnly (number : GoStr) : GoStr := normalizeDigits number false

/-
The enumerations of phonenumberutil.go (lines 421-501).
-/

/-- PhoneNumberFormat (E164, INTERNATIONAL, NATIONAL, RFC3966). -/
inductive PhoneNumberFormat where
  | E164
  | INTERNATIONAL
  | NATIONAL
  | RFC3966
deriving Repr, DecidableEq

/-- PhoneNumberType. -/
inductive PhoneNumberType where
  | FIXED_LINE
  | MOBILE
  | FIXED_LINE_OR_MOBILE
  | TOLL_FREE
  | PREMIUM_RATE
  | SHARED_COST
  | VOIP
  | PERSONAL_NUMBER
  | PAGER
  | UAN
  | VOICEMAIL
  | UNKNOWN
deriving Repr, DecidableEq

/-- MatchType. -/
inductive MatchType where
  | NOT_A_NUMBER
  | NO_MATCH
  | SHORT_NSN_MATCH
  | NSN_MATCH
  | EXACT_MATCH
deriving Repr, DecidableEq

/-- ValidationResult. -/
inductive ValidationResult where
  | IS_POSSIBLE
  | INVALID_COUNTRY_CODE
  | TOO_SHORT
  | TOO_LONG
deriving Repr, DecidableEq

/-- Modelled from the spec: the PhoneNumber.CountryCodeSource enumeration of
the protocol-buffer definitions (a repository file outside src/); spec §3:
"enum {from `+`, from IDD, from plus-less international, from default
region, unset}". -/
inductive CountryCodeSource where
  | fromNumberWithPlusSign
  | fromNumberWithIdd
  | fromNumberWithoutPlusSign
  | fromDefaultCountry
deriving Repr, DecidableEq

/-- Modelled from the spec: the PhoneNumber protocol-buffer message (declared
in a repository file outside src/); spec §3 "StructuredNumber".  Each proto2
optional field is an Option; an unset field makes its Go getter return the
field's default. -/
structure PhoneNumber where
  countryCode : Option Int := none
  nationalNumber : Option Nat := none
  extension : Option GoStr := none
  italianLeadingZero : Option Bool := none
  numberOfLeadingZeros : Option Int := none
  rawInput : Option GoStr := none
  countryCodeSource : Option CountryCodeSource := none
  preferredDomesticCarrierCode : Option GoStr := none
deriving Repr, DecidableEq

/-- `GetCountryCode`: 0 when unset. -/
def PhoneNumber.GetCountryCode (p : PhoneNumber) : Int := p.countryCode.getD 0

/-- `GetNationalNumber`: 0 when unset. -/
def PhoneNumber.GetNationalNumber (p : PhoneNumber) : Nat := p.nationalNumber.getD 0

/-- `GetExtension`: "" when unset. -/
def PhoneNumber.GetExtension (p : PhoneNumber) : GoStr := p.extension.getD []

/-- `GetItalianLeadingZero`: false when unset. -/
def PhoneNumber.GetItalianLeadingZero (p : PhoneNumber) : Bool :=
  p.italianLeadingZero.getD false

/-- Modelled from the spec: `GetNumberOfLeadingZeros` returns the proto
default 1 when the field is unset (spec §3: "`number_of_leading_zeros`:
integer ≥1 when more than one leading zero is present"). -/
def PhoneNumber.GetNumberOfLeadingZeros (p : PhoneNumber) : Int :=
  p.numberOfLeadingZeros.getD 1

/-- `GetRawInput`: "" when unset. -/
def PhoneNumber.GetRawInput (p : PhoneNumber) : GoStr := p.rawInput.getD []

/-- The zero PhoneNumber (`&PhoneNumber{}`), all fields unset. -/
def PhoneNumber.empty : PhoneNumber := {}

/-
Compiled regular expressions from metadata strings.  The code compiles the
pattern strings stored in the metadata (through regexCache, whose caching is
semantically transparent) and calls the operations below on them; the
embedding carries the compiled behaviour directly.  `lookingAt` and
`matches` are the anchored operations of the same regular expression; the
Go code itself only ever uses the unanchored ones (MatchString, FindIndex,
FindAllIndex, FindString, ReplaceAllString), while the spec's words
"prefix-match" and "full match" denote `lookingAt` and `matches`.
-/

/-- The operations the code performs on a compiled regular expression. -/
structure CompiledRegex where
  matchString : GoStr → Bool
  lookingAt : GoStr → Bool
  matchesFull : GoStr → Bool
  findIndex : GoStr → Option (Nat × Nat)
  findAllIndex : GoStr → List (Nat × Nat)
  findString : GoStr → GoStr
  replaceAllString : GoStr → GoStr → GoStr

/-- The compiled empty pattern "" (what `regexp.MustCompile("")` yields when
a metadata pattern string is absent): it matches the empty string at every
position, so MatchString is always true and a full match only of "". -/
def reEmpty : CompiledRegex where
  matchString _ := true
  lookingAt _ := true
  matchesFull s := s.isEmpty
  findIndex _ := some (0, 0)
  findAllIndex s := (runeBoundaries s).map (fun i => (i, i))
  findString _ := []
  replaceAllString s _ := s

/-- The compiled pattern "NonMatch" (the sentinel IDD prefix the parser uses
when there is no default-region metadata): a literal string search. -/
def reNonMatch : CompiledRegex where
  matchString s := containsSub s [78, 111, 110, 77, 97, 116, 99, 104]
  lookingAt s := startsWithList [78, 111, 110, 77, 97, 116, 99, 104] s
  matchesFull s := s = [78, 111, 110, 77, 97, 116, 99, 104]
  findIndex s := (firstIndexOfSub s [78, 111, 110, 77, 97, 116, 99, 104]).map (fun i => (i, i + 8))
  findAllIndex s := ((firstIndexOfSub s [78, 111, 110, 77, 97, 116, 99, 104]).map (fun i => (i, i + 8))).toList
  findString s := if containsSub s [78, 111, 110, 77, 97, 116, 99, 104] then [78, 111, 110, 77, 97, 116, 99, 104] else []
  replaceAllString s _ := s

/-- All positions (byte index pairs) of a given single byte in a string. -/
def singleBytePositions (b : Nat) : GoStr → Nat → List (Nat × Nat)
  | [], _ => []
  | c :: rest, i =>
    if c = b then (i, i + 1) :: singleBytePositions b rest (i + 1)
    else singleBytePositions b rest (i + 1)

/-- The compiled pattern consisting of one literal ASCII character `b`
(such as the national-prefix pattern "0" or a leading-digits pattern "1"):
honest model of Go's regexp on that one-character pattern. -/
def reLit (b : Nat) : CompiledRegex where
  matchString s := s.contains b
  lookingAt s := s.head? = some b
  matchesFull s := s = [b]
  findIndex s := (firstIndexOfSub s [b]).map fun i => (i, i + 1)
  findAllIndex s := singleBytePositions b s 0
  findString s := if s.contains b then [b] else []
  replaceAllString s repl := s.flatMap fun c => if c = b then repl else [c]

/-- Does the string contain two consecutive ASCII-digit bytes. -/
def hasTwoConsecAsciiDigits : GoStr → Bool
  | a :: b :: rest => (isAsciiDigit a && isAsciiDigit b) || hasTwoConsecAsciiDigits (b :: rest)
  | _ => false

/-- The compiled pattern "\\d{2}" (Go's `\d` is the ASCII digit class):
an unanchored match finds two consecutive digits anywhere. -/
def reTwoDigits : CompiledRegex where
  matchString s := hasTwoConsecAsciiDigits s
  lookingAt s := isAsciiDigit (s.head?.getD 0) && isAsciiDigit ((s.drop 1).head?.getD 0)
  matchesFull s := s.length = 2 && s.all isAsciiDigit
  findIndex s := go s 0
  findAllIndex s := (go s 0).toList
  findString s := if hasTwoConsecAsciiDigits s then [] else []
  replaceAllString s _ := s
where
  go : GoStr → Nat → Option (Nat × Nat)
    | a :: b :: rest, i =>
      if isAsciiDigit a && isAsciiDigit b then some (i, i + 2) else go (b :: rest) (i + 1)
    | _, _ => none

/-- The compiled pattern "\\d{2,17}": a full match is 2 to 17 digits; an
unanchored match finds two consecutive digits anywhere (the greedy longer
match starts at the same positions). -/
def reDigits2to17 : CompiledRegex where
  matchString s := hasTwoConsecAsciiDigits s
  lookingAt s := isAsciiDigit (s.head?.getD 0) && isAsciiDigit ((s.drop 1).head?.getD 0)
  matchesFull s := 2 ≤ s.length && s.length ≤ 17 && s.all isAsciiDigit
  findIndex s := reTwoDigits.findIndex s
  findAllIndex s := reTwoDigits.findAllIndex s
  findString _ := []
  replaceAllString s _ := s

/-- The compiled pattern "NA" (the descriptor pattern used for number kinds a
region does not have): a literal string search. -/
def reNA : CompiledRegex where
  matchString s := containsSub s [78, 65]
  lookingAt s := startsWithList [78, 65] s
  matchesFull s := s = [78, 65]
  findIndex s := (firstIndexOfSub s [78, 65]).map (fun i => (i, i + 2))
  findAllIndex s := ((firstIndexOfSub s [78, 65]).map (fun i => (i, i + 2))).toList
  findString s := if containsSub s [78, 65] then [78, 65] else []
  replaceAllString s _ := s

/-
Rune-level normalization (normalizeHelper, lines 948-964) and the alpha
keypad map (ALPHA_PHONE_MAPPINGS, lines 134-173).
-/

/-- `unicode.ToUpper` restricted to what the keypad normalizer can observe:
ASCII letters are upper-cased; U+0131 (dotless i) and U+017F (long s) are
the only non-ASCII runes whose Go upper case is an ASCII letter ('I', 'S');
every other rune maps to itself or to a non-ASCII rune that is in no
replacement map, so identity is observationally faithful there. -/
def goToUpper (r : Nat) : Nat :=
  if 97 ≤ r ∧ r ≤ 122 then r - 32
  else if r = 305 then 73
  else if r = 383 then 83
  else r

/-- ALPHA_PHONE_MAPPINGS: digits and '+', '*' map to themselves, uppercase
letters to their ITU E.161 keypad digit. -/
def alphaPhoneMappings (r : Nat) : Option Nat :=
  if 48 ≤ r ∧ r ≤ 57 then some r
  else if r = 43 then some 43
  else if r = 42 then some 42
  else if 65 ≤ r ∧ r ≤ 67 then some 50      -- A B C → 2
  else if 68 ≤ r ∧ r ≤ 70 then some 51      -- D E F → 3
  else if 71 ≤ r ∧ r ≤ 73 then some 52      -- G H I → 4
  else if 74 ≤ r ∧ r ≤ 76 then some 53      -- J K L → 5
  else if 77 ≤ r ∧ r ≤ 79 then some 54      -- M N O → 6
  else if 80 ≤ r ∧ r ≤ 83 then some 55      -- P Q R S → 7
  else if 84 ≤ r ∧ r ≤ 86 then some 56      -- T U V → 8
  else if 87 ≤ r ∧ r ≤ 90 then some 57      -- W X Y Z → 9
  else none

/-- Embeds `normalizeHelper` (lines 948-964): range over the runes of the
string; a rune whose upper case is in the replacement map is replaced, any
other rune is kept only when `removeNonMatches` is false. -/
def normalizeHelper (number : GoStr) (normalizationReplacements : Nat → Option Nat)
    (removeNonMatches : Bool) : GoStr :=
  (decodeRunes number).flatMap fun character =>
    match normalizationReplacements (goToUpper character) with
    | some newDigit => encodeRune newDigit
    | none => if removeNonMatches then [] else encodeRune character

/-
The constant patterns of phonenumberutil.go, each embedded as a dedicated
function implementing Go's regexp (package regexp, RE2 semantics,
leftmost match) on that pattern.
-/

/-- Byte length of the plus-character run starting here: '+' is one byte,
'＋' (U+FF0B) three bytes. -/
def plusPrefixLen : GoStr → Nat
  | 43 :: rest => 1 + plusPrefixLen rest
  | 239 :: 188 :: 139 :: rest => 3 + plusPrefixLen rest
  | _ => 0

/-- PLUS_CHARS_PATTERN = "[+＋]+", FindAllIndex: the successive
leftmost-longest matches are exactly the maximal runs of plus characters,
as (start, end) byte index pairs. -/
def plusRunsAux : Nat → GoStr → Nat → List (Nat × Nat)
  | 0, _, _ => []
  | _, [], _ => []
  | fuel + 1, s, off =>
    let k := plusPrefixLen s
    if k = 0 then plusRunsAux fuel (s.drop 1) (off + 1)
    else (off, off + k) :: plusRunsAux fuel (s.drop k) (off + k)

/-- All maximal runs of plus characters in `s`
(`PLUS_CHARS_PATTERN.FindAllIndex(s, -1)`). -/
def plusRuns (s : GoStr) : List (Nat × Nat) := plusRunsAux s.length s 0

/-- `PLUS_CHARS_PATTERN.MatchString`. -/
def plusCharsMatch (s : GoStr) : Bool := !(plusRuns s).isEmpty

/-- VALID_START_CHAR_PATTERN = "[+＋\\p{Nd}]": the byte offset of the first
plus or decimal-digit rune (`FindIndex(...)[0]`), scanning rune by rune. -/
def validStartFindIndexAux : Nat → GoStr → Nat → Option Nat
  | 0, _, _ => none
  | _, [], _ => none
  | fuel + 1, s, off =>
    let rn := decodeRune s
    if isPlusRune rn.1 || isNdRune rn.1 then some off
    else validStartFindIndexAux fuel (s.drop rn.2) (off + rn.2)

/-- First offset of a valid start character, if any. -/
def validStartFindIndex (s : GoStr) : Option Nat := validStartFindIndexAux s.length s 0

/-- UNWANTED_END_CHARS = "[[\\P{N}&&\\P{L}]&&[^#]]+$".  Go's regexp (RE2) has
no class intersection: the leading class `[[\P{N}&&\P{L}]` reads as the set
{'[', '&'} ∪ (not Number) ∪ (not Letter) — which is every rune — closed by
the first ']'; the remainder `&&[^#]]+$` is literal.  The pattern therefore
matches a suffix of the form: one rune, "&&", one rune other than '#', then
one or more ']' running to the end of the string. -/
def unwantedSuffixOk (rs : List Nat) : Bool :=
  match rs with
  | _ :: 38 :: 38 :: d :: rest => d ≠ 35 && !rest.isEmpty && rest.all (· = 93)
  | _ => false

/-- `UNWANTED_END_CHAR_PATTERN.FindIndex(s)[0]`: the leftmost rune boundary
at which the suffix pattern above matches. -/
def unwantedEndFindIndex (s : GoStr) : Option Nat :=
  (runeBoundaries s).find? fun i => unwantedSuffixOk (decodeRunes (s.drop i))

/-- After a '\\' or '/': zero or more spaces then 'x'
(the tail of SECOND_NUMBER_START = "[\\\\/] *x"). -/
def spacesThenX : GoStr → Bool
  | 120 :: _ => true
  | 32 :: rest => spacesThenX rest
  | _ => false

/-- `SECOND_NUMBER_START_PATTERN.FindIndex(s)[0]`: the leftmost offset of a
backslash or slash followed by optional spaces and an 'x'. -/
def secondNumberStartFindIndexAux : Nat → GoStr → Nat → Option Nat
  | 0, _, _ => none
  | _, [], _ => none
  | fuel + 1, s, off =>
    match s with
    | b :: rest =>
      if (b = 92 || b = 47) && spacesThenX rest then some off
      else secondNumberStartFindIndexAux fuel rest (off + 1)
    | [] => none

/-- First match offset of SECOND_NUMBER_START_PATTERN, if any. -/
def secondNumberStartFindIndex (s : GoStr) : Option Nat :=
  secondNumberStartFindIndexAux s.length s 0

/-- VALID_ALPHA_PHONE_PATTERN = "(?:.*?[A-Za-z]){3}.*", `MatchString`: the
string contains three ASCII letters with no newline between the first and
the third ('.' does not cross '\\n'); scanning with a counter that resets at
a newline decides exactly that. -/
def validAlphaPhoneMatchAux : List Nat → Nat → Bool
  | [], _ => false
  | r :: rest, cnt =>
    if isAsciiLetter r then (cnt + 1 ≥ 3) || validAlphaPhoneMatchAux rest (cnt + 1)
    else if r = 10 then validAlphaPhoneMatchAux rest 0
    else validAlphaPhoneMatchAux rest cnt

/-- `VALID_ALPHA_PHONE_PATTERN.MatchString`. -/
def validAlphaPhoneMatch (s : GoStr) : Bool := validAlphaPhoneMatchAux (decodeRunes s) 0

/-- Does the rune list contain two consecutive decimal-digit runes
(the first alternative `\\p{Nd}{2}` of VALID_PHONE_NUMBER, unanchored). -/
def hasTwoConsecNd : List Nat → Bool
  | a :: b :: rest => (isNdRune a && isNdRune b) || hasTwoConsecNd (b :: rest)
  | _ => false

/-- Does the rune list contain three decimal digits such that between
consecutive ones there are only punctuation or star runes — the core
`(?:[punct*]*\\p{Nd}){3,}` of VALID_PHONE_NUMBER's second alternative,
unanchored (its other pieces are optional and do not affect containment). -/
def hasThreeGroupedDigits : List Nat → Nat → Bool
  | [], _ => false
  | r :: rest, cnt =>
    if isNdRune r then (cnt + 1 ≥ 3) || hasThreeGroupedDigits rest (cnt + 1)
    else if isPunctOrStar r then hasThreeGroupedDigits rest cnt
    else hasThreeGroupedDigits rest 0

/-- `VALID_PHONE_NUMBER_PATTERN.MatchString` (the pattern VALID_PHONE_NUMBER
followed by an optional extension clause, unanchored): the string contains
two consecutive digit runes, or three digit runes separated only by
punctuation/star runes.  The optional pieces of the pattern (leading plus
signs, trailing punctuation/alpha, the extension clause) never make an
otherwise unmatched string match. -/
def validPhoneNumberMatch (s : GoStr) : Bool :=
  hasTwoConsecNd (decodeRunes s) || hasThreeGroupedDigits (decodeRunes s) 0

/-- Embeds `isViablePhoneNumber` (lines 737-742). -/
def isViablePhoneNumber (number : GoStr) : Bool :=
  if number.length < 2 then false
  else validPhoneNumberMatch number

/-
EXTN_PATTERN = "(?:" + EXTN_PATTERNS_FOR_PARSING + ")$" (lines 361-374).
Since every alternative of the pattern is anchored at the end of the input
by the outer `$`, a match is a suffix of the input belonging to the
pattern's language, and FindIndex returns (start of the earliest matching
suffix, length of the input).  The language membership of a suffix is
decided below piece by piece; each `...Rems` function returns the possible
remainders after the piece has consumed a prefix of the rune list.
-/

/-- Remainders after consuming zero or more runes of class `p`. -/
def starRems (p : Nat → Bool) : List Nat → List (List Nat)
  | [] => [[]]
  | r :: rest => (r :: rest) :: (if p r then starRems p rest else [])

/-- Remainders after consuming one or more runes of class `p`. -/
def onePlusRems (p : Nat → Bool) : List Nat → List (List Nat)
  | [] => []
  | r :: rest => if p r then starRems p rest else []

/-- Remainders after consuming an optional rune of class `p`. -/
def optRems (p : Nat → Bool) (rs : List Nat) : List (List Nat) :=
  rs :: (match rs with
         | r :: rest => if p r then [rest] else []
         | [] => [])

/-- Remainders after consuming an optional literal rune `c`. -/
def optLit (c : Nat) (rs : List Nat) : List (List Nat) := optRems (· = c) rs

/-- Remainder after consuming the literal rune sequence `cs`, if it is a
prefix. -/
def litRems (cs : List Nat) (rs : List Nat) : List (List Nat) :=
  if startsWithList cs rs then [rs.drop cs.length] else []

/-- Remainders after consuming 1 up to `maxN` decimal-digit runes
(the capturing `(\\p{Nd}{1,n})` groups). -/
def digitsRemsAux : Nat → List Nat → List (List Nat)
  | 0, _ => []
  | maxN + 1, rs =>
    match rs with
    | r :: rest => if isNdRune r then rest :: digitsRemsAux maxN rest else []
    | [] => []

/-- The class "[  \\t,]" before an extension marker. -/
def isSpaceTabComma (r : Nat) : Bool := r = 32 || r = 160 || r = 9 || r = 44

/-- The class "[  \\t,-]" before the extension digits. -/
def isSpaceTabCommaDash (r : Nat) : Bool := isSpaceTabComma r || r = 45

/-- The optional punctuation "[:\\.．]" after an extension marker. -/
def isPunctDot (r : Nat) : Bool := r = 58 || r = 46 || r = 65294

/-- The one-rune markers "[,xｘ#＃~～]". -/
def isOneRuneMarker (r : Nat) : Bool :=
  r = 44 || r = 120 || r = 65368 || r = 35 || r = 65283 || r = 126 || r = 65374

/-- Remainders after "(?:ensi(?:ó?|ó))?" (the optional middle of
"extension"-like markers, accented o in both forms). -/
def ensiRems (rs : List Nat) : List (List Nat) :=
  rs :: ((litRems [101, 110, 115, 105] rs).flatMap fun r =>
          ((litRems [111] r).flatMap (optLit 769)) ++ litRems [243] r)

/-- Remainders after one extension marker
"(?:e?xt(?:ensi(?:ó?|ó))?n?|ｅ?ｘｔｎ?|
[,xｘ#＃~～]|int|anexo|ｉｎｔ)". -/
def markerRems (rs : List Nat) : List (List Nat) :=
  ((optLit 101 rs).flatMap fun r1 =>
    (litRems [120, 116] r1).flatMap fun r2 =>
      (ensiRems r2).flatMap fun r3 => optLit 110 r3) ++
  ((optLit 65349 rs).flatMap fun r1 =>
    (litRems [65368, 65364] r1).flatMap fun r2 => optLit 65358 r2) ++
  (match rs with
   | r :: rest => if isOneRuneMarker r then [rest] else []
   | [] => []) ++
  litRems [105, 110, 116] rs ++
  litRems [97, 110, 101, 120, 111] rs ++
  litRems [65353, 65358, 65364] rs

/-- Does the rune list belong to the first alternative
";ext=(\\p{Nd}{1,7})" running to the end. -/
def extnBranch1 (rs : List Nat) : Bool :=
  (litRems [59, 101, 120, 116, 61] rs).any fun r =>
    (digitsRemsAux 7 r).any List.isEmpty

/-- Does the rune list belong to the second (generic-marker) alternative
running to the end. -/
def extnBranch2 (rs : List Nat) : Bool :=
  (starRems isSpaceTabComma rs).any fun r0 =>
    (markerRems r0).any fun r1 =>
      (optRems isPunctDot r1).any fun r2 =>
        (starRems isSpaceTabCommaDash r2).any fun r3 =>
          (digitsRemsAux 7 r3).any fun r4 =>
            (optLit 35 r4).any List.isEmpty

/-- Does the rune list belong to the third alternative
"[- ]+(\\p{Nd}{1,5})#" running to the end. -/
def extnBranch3 (rs : List Nat) : Bool :=
  (onePlusRems (fun r => r = 45 || r = 32) rs).any fun r0 =>
    (digitsRemsAux 5 r0).any fun r1 =>
      (litRems [35] r1).any List.isEmpty

/-- Does the rune list, taken whole, match EXTN_PATTERNS_FOR_PARSING. -/
def extnSuffixMatches (rs : List Nat) : Bool :=
  extnBranch1 rs || extnBranch2 rs || extnBranch3 rs

/-- `EXTN_PATTERN.FindIndex(s)[0]`: the earliest rune boundary whose suffix
matches the pattern (the match always ends at `s.length` because of the
anchor). -/
def extnFindStart (s : GoStr) : Option Nat :=
  (runeBoundaries s).find? fun i => extnSuffixMatches (decodeRunes (s.drop i))

/-
Text extraction and normalization (lines 709-779, 2805-2830).
-/

/-- Embeds `extractPossibleNumber` (lines 709-728): cut from the first valid
start character, strip an unwanted-end match and a second-number start. -/
def extractPossibleNumber (number : GoStr) : GoStr :=
  match validStartFindIndex number with
  | none => []
  | some start =>
    let number1 := number.drop start
    let number2 :=
      match unwantedEndFindIndex number1 with
      | some i => number1.take i
      | none => number1
    match secondNumberStartFindIndex number2 with
    | some i => number2.take i
    | none => number2

/-- Embeds `normalize` (lines 757-762). -/
def normalize (number : GoStr) : GoStr :=
  if validAlphaPhoneMatch number then normalizeHelper number alphaPhoneMappings true
  else normalizeDigitsOnly number

/-- Embeds `maybeStripExtension` (lines 2809-2830): on a pattern match whose
prefix is still viable, the whole matched region is returned as the
extension and the buffer is truncated before it.  Returns (extension,
new buffer contents). -/
def maybeStripExtension (number : GoStr) : GoStr × GoStr :=
  match extnFindStart number with
  | some st =>
    if isViablePhoneNumber (number.take st) then (number.drop st, number.take st)
    else ([], number)
  | none => ([], number)

/-- `CAPTURING_DIGIT_PATTERN.FindAllString(s, -1)` for the pattern
"(\\p{Nd})": every decimal-digit rune of `s`, each as a one-rune string. -/
def ndRuneStrings (s : GoStr) : List GoStr :=
  (decodeRunes s).filterMap fun r => if isNdRune r then some (encodeRune r) else none

/-
The metadata model.  PhoneMetadata / PhoneNumberDesc / NumberFormat are
protocol-buffer types declared in repository files outside src/; the fields
below are the ones phonenumberutil.go reads.  A regex-valued field holds the
compiled behaviour of its pattern string; `none` stands for an absent or
empty pattern string (the code only ever tests emptiness before compiling).
-/

/-- Modelled from the spec: NumberDescriptor (spec §3): a full-match
national-number pattern and a possible-number pattern. -/
structure PhoneNumberDesc where
  nationalNumberPattern : Option CompiledRegex := none
  possibleNumberPattern : Option CompiledRegex := none

/-- Modelled from the spec: NumberFormat (spec §3): a pattern entry with its
replacement template, leading-digits discriminators and formatting rules. -/
structure NumberFormat where
  pattern : Option CompiledRegex := none
  format : GoStr := []
  leadingDigitsPattern : List CompiledRegex := []
  nationalPrefixFormattingRule : GoStr := []
  domesticCarrierCodeFormattingRule : GoStr := []

/-- Modelled from the spec: RegionMetadata (spec §3), restricted to the
fields the embedded functions read. -/
structure PhoneMetadata where
  id : GoStr := []
  countryCode : Int := 0
  internationalPrefix : Option CompiledRegex := none
  nationalPrefix : GoStr := []
  nationalPrefixForParsing : Option CompiledRegex := none
  nationalPrefixTransformRule : GoStr := []
  generalDesc : Option PhoneNumberDesc := none
  fixedLine : Option PhoneNumberDesc := none
  mobile : Option PhoneNumberDesc := none
  tollFree : Option PhoneNumberDesc := none
  premiumRate : Option PhoneNumberDesc := none
  sharedCost : Option PhoneNumberDesc := none
  voip : Option PhoneNumberDesc := none
  personalNumber : Option PhoneNumberDesc := none
  pager : Option PhoneNumberDesc := none
  uan : Option PhoneNumberDesc := none
  voicemail : Option PhoneNumberDesc := none
  sameMobileAndFixedLinePattern : Bool := false
  leadingDigits : Option CompiledRegex := none
  numberFormat : List NumberFormat := []
  intlNumberFormat : List NumberFormat := []
  preferredExtnPrefix : GoStr := []

/-- Nil-safe `GetGeneralDesc` on a possibly-nil metadata pointer. -/
def getGeneralDesc (m : Option PhoneMetadata) : Option PhoneNumberDesc :=
  m.bind (·.generalDesc)

/-- Nil-safe `GetCountryCode` (0 for a nil pointer). -/
def getCountryCodeOf (m : Option PhoneMetadata) : Int :=
  (m.map (·.countryCode)).getD 0

/-- Nil-safe national pattern of a descriptor: `none` when the descriptor is
nil or its pattern string empty. -/
def descNationalPattern (d : Option PhoneNumberDesc) : Option CompiledRegex :=
  d.bind (·.nationalNumberPattern)

/-- Nil-safe possible pattern of a descriptor. -/
def descPossiblePattern (d : Option PhoneNumberDesc) : Option CompiledRegex :=
  d.bind (·.possibleNumberPattern)

/-
Region code string constants.
-/

/-- "US" -/
def strUS : GoStr := [85, 83]
/-- "CA" -/
def strCA : GoStr := [67, 65]
/-- "IT" -/
def strIT : GoStr := [73, 84]
/-- "CH" -/
def strCH : GoStr := [67, 72]
/-- "GB" -/
def strGB : GoStr := [71, 66]
/-- "DE" -/
def strDE : GoStr := [68, 69]
/-- "001" (REGION_CODE_FOR_NON_GEO_ENTITY) -/
def str001 : GoStr := [48, 48, 49]
/-- "ZZ" (UNKNOWN_REGION) -/
def strZZ : GoStr := [90, 90]

/-
Constants of phonenumberutil.go (lines 18-29).
-/

/-- MIN_LENGTH_FOR_NSN = 2. -/
def MIN_LENGTH_FOR_NSN : Nat := 2
/-- MAX_LENGTH_FOR_NSN = 17. -/
def MAX_LENGTH_FOR_NSN : Nat := 17
/-- MAX_LENGTH_COUNTRY_CODE = 3. -/
def MAX_LENGTH_COUNTRY_CODE : Nat := 3
/-- MAX_INPUT_STRING_LENGTH = 250. -/
def MAX_INPUT_STRING_LENGTH : Nat := 250

/-
The metadata registry.  Its contents (the CountryCodeToRegion map and the
serialized metadata blob) are repository data outside src/, modelled from
the spec; the lookup FUNCTIONS below the data are embedded from
phonenumberutil.go.
-/

/-- A "not available" descriptor (pattern "NA"), used for number kinds a
region does not have. -/
def descNA : PhoneNumberDesc where
  nationalNumberPattern := some reNA
  possibleNumberPattern := some reNA

/-- A general/fixed-line descriptor: full national pattern "\\d{2}"-based,
possible pattern "\\d{2,17}". -/
def descGeneral : PhoneNumberDesc where
  nationalNumberPattern := some reTwoDigits
  possibleNumberPattern := some reDigits2to17

/-- Modelled from the spec: a region's metadata (spec §3 RegionMetadata):
a general descriptor with national and possible patterns, a fixed-line
descriptor, and "NA" descriptors for the other number kinds. -/
def mkSimpleMeta (rid : GoStr) (cc : Int) : PhoneMetadata where
  id := rid
  countryCode := cc
  generalDesc := some descGeneral
  fixedLine := some descGeneral
  mobile := some descNA
  tollFree := some descNA
  premiumRate := some descNA
  sharedCost := some descNA
  voip := some descNA
  personalNumber := some descNA
  pager := some descNA
  uan := some descNA
  voicemail := some descNA

/-- Modelled from the spec: the metadata of the NANPA regions (country
calling code 1); the regions sharing the code carry the same patterns
(spec §2: "NANPA sharing country code 1"). -/
def metaNANPA : PhoneMetadata := mkSimpleMeta strUS 1

/-- Modelled from the spec: metadata for "IT". -/
def metaIT : PhoneMetadata := mkSimpleMeta strIT 39
/-- Modelled from the spec: metadata for "CH". -/
def metaCH : PhoneMetadata := mkSimpleMeta strCH 41
/-- Modelled from the spec: metadata for "GB". -/
def metaGB : PhoneMetadata := mkSimpleMeta strGB 44
/-- Modelled from the spec: metadata for "DE". -/
def metaDE : PhoneMetadata := mkSimpleMeta strDE 49

/-- Modelled from the spec: the CountryCodeToRegion map (declared in a
repository file outside src/): country calling code → region codes, the
main region first (spec §3 Registry); 1 is the NANPA code (spec §2), 800 a
non-geographic entity stored under "001" (spec Glossary), and codes such as
9, 99, 999 are assigned to no region. -/
def CountryCodeToRegion (cc : Int) : Option (List GoStr) :=
  if cc = 1 then some [strUS, strCA]
  else if cc = 39 then some [strIT]
  else if cc = 41 then some [strCH]
  else if cc = 44 then some [strGB]
  else if cc = 49 then some [strDE]
  else if cc = 800 then some [str001]
  else none

/-- The region codes for a country calling code, nil (empty) when the map
has no entry (`CountryCodeToRegion[countryCode]`). -/
def regionsOf (cc : Int) : List GoStr := (CountryCodeToRegion cc).getD []

/-- The supportedRegions set: built by NewPhoneNumberUtil from the region
lists of CountryCodeToRegion, the pure non-geo entry "001" excluded. -/
def supportedRegions (r : GoStr) : Bool :=
  r = strUS || r = strCA || r = strIT || r = strCH || r = strGB || r = strDE

/-- Modelled from the spec: the regionToMetadataMap after initialization
loads the metadata blob (spec §3 Registry: map region code → RegionMetadata);
regions sharing calling code 1 share the NANPA patterns. -/
def regionToMetadataMap (r : GoStr) : Option PhoneMetadata :=
  if r = strUS then some metaNANPA
  else if r = strCA then some metaNANPA
  else if r = strIT then some metaIT
  else if r = strCH then some metaCH
  else if r = strGB then some metaGB
  else if r = strDE then some metaDE
  else none

/-- The countryCodeToNonGeographicalMetadataMap.  phonenumberutil.go never
writes to it (the write in loadMetadataFromFile, lines 676-681, is commented
out), so every lookup misses: `getMetadataForNonGeographicalRegion` fetches
the zero value before the (ineffective) load call and returns it. -/
def countryCodeToNonGeographicalMetadataMap (_ : Int) : Option PhoneMetadata := none

/-- Embeds `isValidRegionCode` (lines 1045-1048). -/
def isValidRegionCode (regionCode : GoStr) : Bool :=
  regionCode.length ≠ 0 && supportedRegions regionCode

/-- Embeds `hasValidCountryCallingCode` (lines 1051-1054). -/
def hasValidCountryCallingCode (countryCallingCode : Int) : Bool :=
  (CountryCodeToRegion countryCallingCode).isSome

/-- Embeds `getMetadataForRegion` (lines 2108-2123). -/
def getMetadataForRegion (regionCode : GoStr) : Option PhoneMetadata :=
  if ¬ isValidRegionCode regionCode then none
  else regionToMetadataMap regionCode

/-- Embeds `getMetadataForNonGeographicalRegion` (lines 2125-2141): with the
non-geographical map never populated, the returned value is always the miss
value (nil). -/
def getMetadataForNonGeographicalRegion (countryCallingCode : Int) : Option PhoneMetadata :=
  if (CountryCodeToRegion countryCallingCode).isNone then none
  else countryCodeToNonGeographicalMetadataMap countryCallingCode

/-- Embeds `getMetadataForRegionOrCallingCode` (lines 1228-1234). -/
def getMetadataForRegionOrCallingCode (countryCallingCode : Int) (regionCode : GoStr) :
    Option PhoneMetadata :=
  if str001 = regionCode then getMetadataForNonGeographicalRegion countryCallingCode
  else getMetadataForRegion regionCode

/-- Embeds `getRegionCodeForCountryCode` (lines 2266-2272). -/
def getRegionCodeForCountryCode (countryCallingCode : Int) : GoStr :=
  match regionsOf countryCallingCode with
  | [] => strZZ
  | r :: _ => r

/-- Embeds `GetCountryCodeForValidRegion` (lines 2300-2303); the proto getter
on a nil metadata pointer returns 0. -/
def GetCountryCodeForValidRegion (regionCode : GoStr) : Int :=
  getCountryCodeOf (getMetadataForRegion regionCode)

/-
Formatting (lines 1056-1126, 1751-1936).
-/

/-- Embeds `getNationalSignificantNumber` (lines 1751-1774): when the
Italian leading zero is set, that many '0' bytes; then the EIGHT RAW BYTES
of the uint64 national number, big-endian, exactly as the code writes them
(`byte(natNum >> 56), ..., byte(natNum & 0xff)`) — not its decimal digits. -/
def getNationalSignificantNumber (number : PhoneNumber) : GoStr :=
  (if number.GetItalianLeadingZero then
    List.replicate number.GetNumberOfLeadingZeros.toNat 48
  else []) ++ uint64BEBytes number.GetNationalNumber

/-- Embeds `prefixNumberWithCountryCallingCode` (lines 1777-1806).  Note the
NATIONAL and default switch cases write nothing into the fresh buffer, and
the function then replaces the formatted number with that buffer: for
NATIONAL the formatted number is erased. -/
def prefixNumberWithCountryCallingCode (countryCallingCode : Int)
    (numberFormat : PhoneNumberFormat) (formattedNumber : GoStr) : GoStr :=
  match numberFormat with
  | .E164 => 43 :: (appendInt countryCallingCode ++ formattedNumber)
  | .INTERNATIONAL => 43 :: (appendInt countryCallingCode ++ [32] ++ formattedNumber)
  | .RFC3966 =>
    [116, 101, 108, 58, 43] ++ appendInt countryCallingCode ++ [45] ++ formattedNumber
  | .NATIONAL => []

/-- Embeds `chooseFormattingPatternForNumber` (lines 1842-1865): an entry
with no leading_digits_pattern is skipped (`continue`); otherwise the LAST
leading_digits_pattern is matched against the national number with
MatchString (unanchored), and the first entry whose match succeeds is
returned.  The entry's full `pattern` is never consulted. -/
def chooseFormattingPatternForNumber (availableFormats : List NumberFormat)
    (nationalNumber : GoStr) : Option NumberFormat :=
  match availableFormats with
  | [] => none
  | numFormat :: rest =>
    if numFormat.leadingDigitsPattern.length = 0 then
      chooseFormattingPatternForNumber rest nationalNumber
    else
      match numFormat.leadingDigitsPattern.getLast? with
      | some reg =>
        if reg.matchString nationalNumber then some numFormat
        else chooseFormattingPatternForNumber rest nationalNumber
      | none => chooseFormattingPatternForNumber rest nationalNumber

/-- A run of Go replacement-template name bytes ([0-9A-Za-z_]). -/
def isTemplateNameByte (b : Nat) : Bool :=
  isAsciiDigit b || isAsciiLetter b || b = 95

/-- Expansion of a Go replacement template where the matched pattern has one
capture group whose text is `group1` (Regexp.ReplaceAllString: '$' followed
by the longest run of name bytes references that group — "1" is the group,
any other name is absent and expands to nothing; a '$' followed by no name
byte stays literal). -/
def expandTemplateAux : Nat → GoStr → GoStr → GoStr
  | 0, _, _ => []
  | _, [], _ => []
  | fuel + 1, 36 :: rest, group1 =>
    let nameRun := rest.takeWhile isTemplateNameByte
    if nameRun.isEmpty then 36 :: expandTemplateAux fuel rest group1
    else (if nameRun = [49] then group1 else []) ++
      expandTemplateAux fuel (rest.drop nameRun.length) group1
  | fuel + 1, b :: rest, group1 => b :: expandTemplateAux fuel rest group1

/-- Expansion of a Go replacement template (see `expandTemplateAux`). -/
def expandTemplate (template group1 : GoStr) : GoStr :=
  expandTemplateAux template.length template group1

/-- `FIRST_GROUP_PATTERN.ReplaceAllString(src, repl)` for the pattern
"(\\$\\d)": each "$<digit>" in `src` is replaced by `repl` expanded against
that matched text as group 1. -/
def firstGroupReplaceAll : GoStr → GoStr → GoStr
  | [], _ => []
  | 36 :: d :: rest, repl =>
    if isAsciiDigit d then expandTemplate repl [36, d] ++ firstGroupReplaceAll rest repl
    else 36 :: firstGroupReplaceAll (d :: rest) repl
  | b :: rest, repl => b :: firstGroupReplaceAll rest repl

/-- `CC_PATTERN.ReplaceAllString(src, repl)` for the literal pattern
"\\$CC" (the replacement, a carrier code, holds no '$'). -/
def ccReplaceAll : GoStr → GoStr → GoStr
  | [], _ => []
  | 36 :: 67 :: 67 :: rest, repl => repl ++ ccReplaceAll rest repl
  | b :: rest, repl => b :: ccReplaceAll rest repl

/-- Embeds `formatNsnUsingPatternWithCarrier` (lines 1878-1936).  Note the
final substitution `m.ReplaceAllString(numberFormatRule, nationalNumber)`
passes the format RULE as the text and the national number as the
replacement (the code's own TODO asks "should these params be reversed?"),
and the RFC3966 block (lines 1924-1934) does nothing. -/
def formatNsnUsingPatternWithCarrier (nationalNumber : GoStr)
    (formattingPattern : NumberFormat) (numberFormat : PhoneNumberFormat)
    (carrierCode : GoStr) : GoStr :=
  let numberFormatRule := formattingPattern.format
  let m := formattingPattern.pattern.getD reEmpty
  if numberFormat = .NATIONAL ∧ carrierCode.length > 0 ∧
      formattingPattern.domesticCarrierCodeFormattingRule.length > 0 then
    let carrierCodeFormattingRule :=
      ccReplaceAll formattingPattern.domesticCarrierCodeFormattingRule carrierCode
    let numberFormatRule2 := firstGroupReplaceAll numberFormatRule carrierCodeFormattingRule
    m.replaceAllString numberFormatRule2 nationalNumber
  else
    let nationalPrefixFormattingRule := formattingPattern.nationalPrefixFormattingRule
    if numberFormat = .NATIONAL ∧ nationalPrefixFormattingRule.length > 0 then
      m.replaceAllString
        (firstGroupReplaceAll numberFormatRule nationalPrefixFormattingRule)
        nationalNumber
    else m.replaceAllString numberFormatRule nationalNumber

/-- Embeds `formatNsnUsingPattern` (lines 1868-1874). -/
def formatNsnUsingPattern (nationalNumber : GoStr) (formattingPattern : NumberFormat)
    (numberFormat : PhoneNumberFormat) : GoStr :=
  formatNsnUsingPatternWithCarrier nationalNumber formattingPattern numberFormat []

/-- The list of formats `formatNsnWithCarrier` walks: the international list
unless it is empty or the target is NATIONAL (lines 1825-1832); nil-safe on
a nil metadata pointer (both getters then yield empty lists). -/
def availableFormatsOf (metadata : Option PhoneMetadata)
    (numberFormat : PhoneNumberFormat) : List NumberFormat :=
  let intlNumberFormats := (metadata.map (·.intlNumberFormat)).getD []
  if intlNumberFormats.length = 0 ∨ numberFormat = .NATIONAL then
    (metadata.map (·.numberFormat)).getD []
  else intlNumberFormats

/-- Embeds `formatNsnWithCarrier` (lines 1820-1840): when no formatting
pattern is chosen the input is returned unchanged. -/
def formatNsnWithCarrier (number : GoStr) (metadata : Option PhoneMetadata)
    (numberFormat : PhoneNumberFormat) (carrierCode : GoStr) : GoStr :=
  match chooseFormattingPatternForNumber (availableFormatsOf metadata numberFormat) number with
  | none => number
  | some formattingPattern =>
    formatNsnUsingPatternWithCarrier number formattingPattern numberFormat carrierCode

/-- Embeds `formatNsn` (lines 1809-1812). -/
def formatNsn (number : GoStr) (metadata : Option PhoneMetadata)
    (numberFormat : PhoneNumberFormat) : GoStr :=
  formatNsnWithCarrier number metadata numberFormat []

/-- Embeds `maybeAppendFormattedExtension` (lines 1984-2004), returning the
buffer with the extension suffix appended. -/
def maybeAppendFormattedExtension (number : PhoneNumber) (metadata : Option PhoneMetadata)
    (numberFormat : PhoneNumberFormat) (formattedNumber : GoStr) : GoStr :=
  let extension := number.GetExtension
  if extension.length = 0 then formattedNumber
  else
    let prefExtn := (metadata.map (·.preferredExtnPrefix)).getD []
    if numberFormat = .RFC3966 then
      formattedNumber ++ [59, 101, 120, 116, 61] ++ extension
    else if prefExtn.length > 0 then formattedNumber ++ prefExtn ++ extension
    else formattedNumber ++ [32, 101, 120, 116, 46, 32] ++ extension

/-- Embeds `formatWithBuf` (lines 1087-1126). -/
def formatWithBuf (number : PhoneNumber) (numberFormat : PhoneNumberFormat) : GoStr :=
  let countryCallingCode := number.GetCountryCode
  let nationalSignificantNumber := getNationalSignificantNumber number
  if numberFormat = .E164 then
    prefixNumberWithCountryCallingCode countryCallingCode .E164 nationalSignificantNumber
  else if ¬ hasValidCountryCallingCode countryCallingCode then nationalSignificantNumber
  else
    let regionCode := getRegionCodeForCountryCode countryCallingCode
    let metadata := getMetadataForRegionOrCallingCode countryCallingCode regionCode
    let formatted := formatNsn nationalSignificantNumber metadata numberFormat
    let withExt := maybeAppendFormattedExtension number metadata numberFormat formatted
    prefixNumberWithCountryCallingCode countryCallingCode numberFormat withExt

/-- Embeds `format` (lines 1066-1082). -/
def format (number : PhoneNumber) (numberFormat : PhoneNumberFormat) : GoStr :=
  if number.GetNationalNumber = 0 ∧ number.GetRawInput.length > 0 then number.GetRawInput
  else formatWithBuf number numberFormat

/-
Classification (lines 2039-2104, 2143-2256, 2375-2470).
-/

/-- Embeds `testNumberLengthAgainstPattern` (lines 2384-2399): IS_POSSIBLE on
an (unanchored) match, TOO_SHORT otherwise.  The TOO_LONG case of the Java
original is commented out in the source (the lookingAt TODO, lines
2392-2397), so TOO_LONG is never returned. -/
def testNumberLengthAgainstPattern (numberPattern : CompiledRegex) (number : GoStr) :
    ValidationResult :=
  if numberPattern.matchString number then .IS_POSSIBLE else .TOO_SHORT

/-- Embeds `isShorterThanPossibleNormalNumber` (lines 2403-2414). -/
def isShorterThanPossibleNormalNumber (regionMetadata : PhoneMetadata) (number : GoStr) :
    Bool :=
  testNumberLengthAgainstPattern
    ((descPossiblePattern regionMetadata.generalDesc).getD reEmpty) number = .TOO_SHORT

/-- Embeds `isNumberPossibleForDesc` (lines 2143-2153); an absent possible
pattern compiles the empty pattern, which matches everything. -/
def isNumberPossibleForDesc (nationalNumber : GoStr) (numberDesc : Option PhoneNumberDesc) :
    Bool :=
  ((descPossiblePattern numberDesc).getD reEmpty).matchString nationalNumber

/-- Embeds `isNumberMatchingDesc` (lines 2155-2165). -/
def isNumberMatchingDesc (nationalNumber : GoStr) (numberDesc : Option PhoneNumberDesc) :
    Bool :=
  isNumberPossibleForDesc nationalNumber numberDesc &&
    ((descNationalPattern numberDesc).getD reEmpty).matchString nationalNumber

/-- Embeds `getNumberTypeHelper` (lines 2050-2104). -/
def getNumberTypeHelper (nationalNumber : GoStr) (metadata : Option PhoneMetadata) :
    PhoneNumberType :=
  if (descNationalPattern (getGeneralDesc metadata)).isNone ∨
      ¬ isNumberMatchingDesc nationalNumber (getGeneralDesc metadata) then .UNKNOWN
  else if isNumberMatchingDesc nationalNumber (metadata.bind (·.premiumRate)) then .PREMIUM_RATE
  else if isNumberMatchingDesc nationalNumber (metadata.bind (·.tollFree)) then .TOLL_FREE
  else if isNumberMatchingDesc nationalNumber (metadata.bind (·.sharedCost)) then .SHARED_COST
  else if isNumberMatchingDesc nationalNumber (metadata.bind (·.voip)) then .VOIP
  else if isNumberMatchingDesc nationalNumber (metadata.bind (·.personalNumber)) then
    .PERSONAL_NUMBER
  else if isNumberMatchingDesc nationalNumber (metadata.bind (·.pager)) then .PAGER
  else if isNumberMatchingDesc nationalNumber (metadata.bind (·.uan)) then .UAN
  else if isNumberMatchingDesc nationalNumber (metadata.bind (·.voicemail)) then .VOICEMAIL
  else if isNumberMatchingDesc nationalNumber (metadata.bind (·.fixedLine)) then
    if (metadata.map (·.sameMobileAndFixedLinePattern)).getD false then .FIXED_LINE_OR_MOBILE
    else if isNumberMatchingDesc nationalNumber (metadata.bind (·.mobile)) then
      .FIXED_LINE_OR_MOBILE
    else .FIXED_LINE
  else if ¬ (metadata.map (·.sameMobileAndFixedLinePattern)).getD false ∧
      isNumberMatchingDesc nationalNumber (metadata.bind (·.mobile)) then .MOBILE
  else .UNKNOWN

/-- Embeds `getRegionCodeForNumberFromRegionList` (lines 2230-2256). -/
def getRegionCodeForNumberFromRegionList (nationalNumber : GoStr)
    (regionCodes : List GoStr) : GoStr :=
  match regionCodes with
  | [] => []
  | regionCode :: rest =>
    let metadata := getMetadataForRegion regionCode
    match metadata.bind (·.leadingDigits) with
    | some pat =>
      if pat.matchString nationalNumber then regionCode
      else getRegionCodeForNumberFromRegionList nationalNumber rest
    | none =>
      if getNumberTypeHelper nationalNumber metadata ≠ .UNKNOWN then regionCode
      else getRegionCodeForNumberFromRegionList nationalNumber rest

/-- Embeds `getRegionCodeForNumber` (lines 2214-2228); "" when the country
code maps to no region. -/
def getRegionCodeForNumber (number : PhoneNumber) : GoStr :=
  let countryCode := number.GetCountryCode
  match regionsOf countryCode with
  | [] => []
  | [r] => r
  | rs => getRegionCodeForNumberFromRegionList (getNationalSignificantNumber number) rs

/-- Embeds `isValidNumberForRegion` (lines 2187-2210). -/
def isValidNumberForRegion (number : PhoneNumber) (regionCode : GoStr) : Bool :=
  let countryCode := number.GetCountryCode
  let metadata := getMetadataForRegionOrCallingCode countryCode regionCode
  if metadata.isNone ∨
      (str001 ≠ regionCode ∧ countryCode ≠ GetCountryCodeForValidRegion regionCode) then
    false
  else
    let generalNumDesc := getGeneralDesc metadata
    let nationalSignificantNumber := getNationalSignificantNumber number
    if (descNationalPattern generalNumDesc).isNone then
      decide (nationalSignificantNumber.length > MIN_LENGTH_FOR_NSN ∧
        nationalSignificantNumber.length ≤ MAX_LENGTH_FOR_NSN)
    else getNumberTypeHelper nationalSignificantNumber metadata ≠ .UNKNOWN

/-- Embeds `isValidNumber` (lines 2170-2173). -/
def isValidNumber (number : PhoneNumber) : Bool :=
  isValidNumberForRegion number (getRegionCodeForNumber number)

/-- Embeds `isPossibleNumberWithReason` (lines 2434-2470). -/
def isPossibleNumberWithReason (number : PhoneNumber) : ValidationResult :=
  let nationalNumber := getNationalSignificantNumber number
  let countryCode := number.GetCountryCode
  if ¬ hasValidCountryCallingCode countryCode then .INVALID_COUNTRY_CODE
  else
    let regionCode := getRegionCodeForCountryCode countryCode
    let metadata := getMetadataForRegionOrCallingCode countryCode regionCode
    let generalNumDesc := getGeneralDesc metadata
    if (descNationalPattern generalNumDesc).isNone then
      if nationalNumber.length < MIN_LENGTH_FOR_NSN then .TOO_SHORT
      else if nationalNumber.length > MAX_LENGTH_FOR_NSN then .TOO_LONG
      else .IS_POSSIBLE
    else
      testNumberLengthAgainstPattern
        ((descPossiblePattern generalNumDesc).getD reEmpty) nationalNumber

/-- Embeds `isPossibleNumber` (lines 2375-2377). -/
def isPossibleNumber (number : PhoneNumber) : Bool :=
  isPossibleNumberWithReason number = .IS_POSSIBLE

/-
The matcher (lines 3110-3200).
-/

/-- `proto.Merge(dst, src)` of the goprotobuf library the code imports:
merging into a nil destination panics ("proto: nil destination"); otherwise
fields set in src overwrite the destination's. -/
def protoMerge (dst : Option PhoneNumber) (src : PhoneNumber) : GoResult PhoneNumber :=
  match dst with
  | none => GoResult.panicked "proto: nil destination"
  | some d =>
    GoResult.ok
      { countryCode := src.countryCode.orElse fun _ => d.countryCode
        nationalNumber := src.nationalNumber.orElse fun _ => d.nationalNumber
        extension := src.extension.orElse fun _ => d.extension
        italianLeadingZero := src.italianLeadingZero.orElse fun _ => d.italianLeadingZero
        numberOfLeadingZeros := src.numberOfLeadingZeros.orElse fun _ => d.numberOfLeadingZeros
        rawInput := src.rawInput.orElse fun _ => d.rawInput
        countryCodeSource := src.countryCodeSource.orElse fun _ => d.countryCodeSource
        preferredDomesticCarrierCode :=
          src.preferredDomesticCarrierCode.orElse fun _ => d.preferredDomesticCarrierCode }

/-- Embeds `isNationalNumberSuffixOfTheOther` (lines 3190-3200):
`strconv.FormatUint` of each national number, then a suffix check either
way. -/
def isNationalNumberSuffixOfTheOther (firstNumber secondNumber : PhoneNumber) : Bool :=
  let firstNumberNationalNumber := natDigits firstNumber.GetNationalNumber
  let secondNumberNationalNumber := natDigits secondNumber.GetNationalNumber
  endsWithList secondNumberNationalNumber firstNumberNationalNumber ||
    endsWithList firstNumberNationalNumber secondNumberNationalNumber

/-- The comparison logic of `isNumberMatchWithNumbers` after the copies are
made (lines 3128-3185): clear raw_input, country_code_source and the
preferred carrier code, drop empty extensions, then compare with
reflect.DeepEqual (structural equality on the dereferenced messages). -/
def isNumberMatchCore (firstNumberIn secondNumberIn : PhoneNumber) : MatchType :=
  let firstNumber := { firstNumberIn with
    rawInput := none, countryCodeSource := none, preferredDomesticCarrierCode := none }
  let secondNumber := { secondNumberIn with
    rawInput := none, countryCodeSource := none, preferredDomesticCarrierCode := none }
  let firstNumExt := firstNumber.GetExtension
  let secondNumExt := secondNumber.GetExtension
  let firstNumber := if firstNumExt.length = 0 then { firstNumber with extension := none }
    else firstNumber
  let secondNumber := if secondNumExt.length = 0 then { secondNumber with extension := none }
    else secondNumber
  if firstNumExt.length > 0 ∧ secondNumExt.length > 0 ∧ firstNumExt ≠ secondNumExt then
    .NO_MATCH
  else
    let firstNumberCountryCode := firstNumber.GetCountryCode
    let secondNumberCountryCode := secondNumber.GetCountryCode
    if firstNumberCountryCode ≠ 0 ∧ secondNumberCountryCode ≠ 0 then
      if firstNumber = secondNumber then .EXACT_MATCH
      else if firstNumberCountryCode = secondNumberCountryCode ∧
          isNationalNumberSuffixOfTheOther firstNumber secondNumber then .SHORT_NSN_MATCH
      else .NO_MATCH
    else
      let firstNumber := { firstNumber with countryCode := some secondNumberCountryCode }
      if firstNumber = secondNumber then .NSN_MATCH
      else if isNationalNumberSuffixOfTheOther firstNumber secondNumber then .SHORT_NSN_MATCH
      else .NO_MATCH

/-- Embeds `isNumberMatchWithNumbers` (lines 3123-3186).  The function
declares `var firstNumber, secondNumber *PhoneNumber` — two NIL pointers —
and immediately calls `proto.Merge(firstNumber, firstNumberIn)`, so the
nil-destination panic fires before any comparison is reached. -/
def isNumberMatchWithNumbers (firstNumberIn secondNumberIn : PhoneNumber) :
    GoResult MatchType :=
  match protoMerge none firstNumberIn with
  | GoResult.panicked m => GoResult.panicked m
  | GoResult.ok firstNumber =>
    match protoMerge none secondNumberIn with
    | GoResult.panicked m => GoResult.panicked m
    | GoResult.ok secondNumber => GoResult.ok (isNumberMatchCore firstNumber secondNumber)

/-
The parser (lines 2522-3108).
-/

/-- The error values parseHelper can return, one per `errors.New` site (the
declared `ErrInvalidCountryCode` is included: it exists at line 2924 and is
compared against by isNumberMatch, but no parse path returns it). -/
inductive ParseErr where
  | emptyInput                -- "The phone number supplied was empty."
  | tooLongInput              -- "The string supplied was too long to parse."
  | notANumber                -- "The string supplied did not seem to be a phone number."
  | invalidRegion             -- "Missing or invalid default region."
  | tooShortNsn               -- "The string supplied is too short to be a phone number."
  | numTooLong                -- ErrNumTooLong
  | invalidCountryCode        -- ErrInvalidCountryCode (declared, never returned)
deriving Repr, DecidableEq

/-- The outcome of parseHelper: a filled PhoneNumber, a returned error, or an
escaped panic. -/
inductive ParseOut where
  | ok (pn : PhoneNumber)
  | err (e : ParseErr)
  | panicked (msg : String)
deriving Repr, DecidableEq

/-- Embeds `parsePrefixAsIdd` (lines 2657-2679): find the IDD pattern, check
that the first digit after the match is not '0' by reading the SECOND
element `find[1]` of the digit matches (an index-out-of-range panic when
exactly one digit follows — the guard only checks `len(find) > 0`), then
strip to the match end.  Returns (stripped?, buffer contents). -/
def parsePrefixAsIdd (iddPattern : CompiledRegex) (number : GoStr) :
    GoResult (Bool × GoStr) :=
  match iddPattern.findIndex number with
  | none => GoResult.ok (false, number)
  | some ind =>
    let matchEnd := ind.2
    let find := ndRuneStrings (number.drop matchEnd)
    if find.length > 0 then
      match goGet find 1 with
      | GoResult.panicked m => GoResult.panicked m
      | GoResult.ok g =>
        if normalizeDigitsOnly g = [48] then GoResult.ok (false, number)
        else GoResult.ok (true, number.drop matchEnd)
    else GoResult.ok (true, number.drop matchEnd)

/-- Embeds `maybeStripInternationalPrefixAndNormalize` (lines 2685-2722).
PLUS_CHARS_PATTERN.FindAllIndex finds every plus run anywhere; the code
drops everything before the END OF THE LAST run, then normalizes. -/
def maybeStripInternationalPrefixAndNormalize (number : GoStr)
    (iddPattern : CompiledRegex) : GoResult (CountryCodeSource × GoStr) :=
  if number.length = 0 then GoResult.ok (.fromDefaultCountry, number)
  else
    match (plusRuns number).getLast? with
    | some lastRun =>
      GoResult.ok (.fromNumberWithPlusSign, normalize (number.drop lastRun.2))
    | none =>
      let number2 := normalize number
      match parsePrefixAsIdd iddPattern number2 with
      | GoResult.panicked m => GoResult.panicked m
      | GoResult.ok (stripped, number3) =>
        if stripped then GoResult.ok (.fromNumberWithIdd, number3)
        else GoResult.ok (.fromDefaultCountry, number3)

/-- One step of the loop of `extractCountryCode`: try the first `i` bytes as
a country code. -/
def extractCcTry (fullNumber : GoStr) (i : Nat) : Option (Int × GoStr) :=
  if i ≤ fullNumber.length then
    let potentialCountryCode := goAtoi (fullNumber.take i)
    if (CountryCodeToRegion potentialCountryCode).isSome then
      some (potentialCountryCode, fullNumber.drop i)
    else none
  else none

/-- Embeds `extractCountryCode` (lines 2527-2544), the loop over prefix
lengths 1..MAX_LENGTH_COUNTRY_CODE = 3 unrolled.  Returns (code, the
remainder written into nationalNumber — empty when nothing was written). -/
def extractCountryCode (fullNumber : GoStr) : Int × GoStr :=
  if fullNumber.length = 0 ∨ fullNumber.head? = some 48 then (0, [])
  else
    match extractCcTry fullNumber 1 with
    | some r => r
    | none =>
      match extractCcTry fullNumber 2 with
      | some r => r
      | none =>
        match extractCcTry fullNumber 3 with
        | some r => r
        | none => (0, [])

/-- The no-transform branch of `maybeStripNationalPrefixAndCarrierCode`
(lines 2762-2779).  Returns (stripped?, buffer, carrier buffer). -/
def stripNoTransform (number : GoStr) (groups : List (Nat × Nat))
    (nationalNumberRule : CompiledRegex) (isViableOriginalNumber : Bool)
    (carrierCode : GoStr) : GoResult (Bool × GoStr × GoStr) :=
  let viableAbort : GoResult Bool :=
    if isViableOriginalNumber then
      match goGet groups (groups.length - 1) with
      | GoResult.panicked m => GoResult.panicked m
      | GoResult.ok lastG =>
        GoResult.ok (¬ nationalNumberRule.matchString (number.drop lastG.2))
    else GoResult.ok false
  match viableAbort with
  | GoResult.panicked m => GoResult.panicked m
  | GoResult.ok true => GoResult.ok (false, number, carrierCode)
  | GoResult.ok false =>
    let carrierRes : GoResult GoStr :=
      if carrierCode.length ≠ 0 ∧ groups.length > 0 then
        match goGet groups (groups.length - 1) with
        | GoResult.panicked m => GoResult.panicked m
        | GoResult.ok _ =>
          match goGet groups 0 with
          | GoResult.panicked m => GoResult.panicked m
          | GoResult.ok g0 => GoResult.ok (carrierCode ++ ((number.take g0.2).drop g0.1))
      else GoResult.ok carrierCode
    match carrierRes with
    | GoResult.panicked m => GoResult.panicked m
    | GoResult.ok carrierCode2 =>
      match goGet groups 0 with
      | GoResult.panicked m => GoResult.panicked m
      | GoResult.ok g0 => GoResult.ok (true, number.drop g0.2, carrierCode2)

/-- The transform branch of `maybeStripNationalPrefixAndCarrierCode` (lines
2780-2800).  `bytes.NewBuffer(number.Bytes())` shares the backing array, and
`copy(transformedNumBytes[0:numberLength], replaced)` overwrites its first
bytes with the replaced string (truncated to the old length); the rest of
the old contents shows through when the replacement is shorter. -/
def stripTransform (number : GoStr) (prefixMatcher : CompiledRegex)
    (nationalNumberRule : CompiledRegex) (isViableOriginalNumber : Bool)
    (transformRule carrierCode : GoStr) (numOfGroups : Nat) :
    GoResult (Bool × GoStr × GoStr) :=
  let numberLength := number.length
  let replaced := prefixMatcher.replaceAllString number transformRule
  let cut := min numberLength replaced.length
  let mutated := replaced.take cut ++ number.drop cut
  if isViableOriginalNumber ∧ ¬ nationalNumberRule.matchString mutated then
    GoResult.ok (false, mutated, carrierCode)
  else
    let carrierCode2 :=
      if carrierCode.length ≠ 0 ∧ numOfGroups > 1 then
        carrierCode ++ prefixMatcher.findString number
      else carrierCode
    GoResult.ok (true, mutated, carrierCode2)

/-- Embeds `maybeStripNationalPrefixAndCarrierCode` (lines 2726-2803).
Returns (stripped?, buffer contents, carrier buffer contents).  The
branch condition `len(transformRule) == 0 || len(groups[numOfGroups-1]) == 0`
short-circuits: with a transform rule present it indexes
`groups[numOfGroups-1]` (a two-element index pair, so never of length 0). -/
def maybeStripNationalPrefixAndCarrierCode (number : GoStr) (metadata : PhoneMetadata)
    (carrierCode : GoStr) : GoResult (Bool × GoStr × GoStr) :=
  match metadata.nationalPrefixForParsing with
  | none => GoResult.ok (false, number, carrierCode)
  | some prefixMatcher =>
    if number.length = 0 then GoResult.ok (false, number, carrierCode)
    else if prefixMatcher.matchString number then
      let nationalNumberRule := (descNationalPattern metadata.generalDesc).getD reEmpty
      let isViableOriginalNumber := nationalNumberRule.matchString number
      let groups := prefixMatcher.findAllIndex number
      let numOfGroups := groups.length
      let transformRule := metadata.nationalPrefixTransformRule
      if transformRule.length = 0 then
        stripNoTransform number groups nationalNumberRule isViableOriginalNumber carrierCode
      else
        match goGet groups (numOfGroups - 1) with
        | GoResult.panicked m => GoResult.panicked m
        | GoResult.ok _ =>
          stripTransform number prefixMatcher nationalNumberRule isViableOriginalNumber
            transformRule carrierCode numOfGroups
    else GoResult.ok (false, number, carrierCode)

/-- The default-region branch of `maybeExtractCountryCode` (lines
2604-2648): when the normalized number starts with the default region's
country code, strip it, strip a national prefix from the remainder, and
keep the stripped form when it is valid where the full number is not (or
when the full number tests TOO_LONG, which testNumberLengthAgainstPattern
never returns).  `some` = an early return with the extracted code, `none` =
fall through. -/
def maybeExtractDefaultCc (md : PhoneMetadata) (fullNumber : GoStr)
    (keepRawInput : Bool) (pn : PhoneNumber) :
    GoResult (Option (Int × GoStr × PhoneNumber)) :=
  if startsWithList (appendInt md.countryCode) fullNumber then
    match maybeStripNationalPrefixAndCarrierCode
        (fullNumber.drop (appendInt md.countryCode).length) md [] with
    | GoResult.panicked m => GoResult.panicked m
    | GoResult.ok (_, potentialNationalNumber2, _) =>
      if (¬ ((descNationalPattern md.generalDesc).getD reEmpty).matchString fullNumber ∧
            ((descNationalPattern md.generalDesc).getD reEmpty).matchString
              potentialNationalNumber2) ∨
          testNumberLengthAgainstPattern
            ((descPossiblePattern md.generalDesc).getD reEmpty) fullNumber = .TOO_LONG then
        GoResult.ok (some (md.countryCode, potentialNationalNumber2,
          { (if keepRawInput then
              { pn with countryCodeSource := some .fromNumberWithoutPlusSign } else pn) with
            countryCode := some md.countryCode }))
      else GoResult.ok none
  else GoResult.ok none

/-- The sentinel-or-metadata IDD pattern of `maybeExtractCountryCode` (lines
2577-2581): the default region's international prefix, or the never-matching
"NonMatch" pattern without metadata. -/
def iddPatternOf (defaultRegionMetadata : Option PhoneMetadata) : CompiledRegex :=
  match defaultRegionMetadata with
  | some md => md.internationalPrefix.getD reEmpty
  | none => reNonMatch

/-- The part of `maybeExtractCountryCode` after the international prefix has
been handled (lines 2585-2652), on the updated PhoneNumber. -/
def meccAfterStrip (countryCodeSource : CountryCodeSource) (fullNumber : GoStr)
    (defaultRegionMetadata : Option PhoneMetadata) (keepRawInput : Bool)
    (pn : PhoneNumber) : GoResult (Int × GoStr × PhoneNumber) :=
  if countryCodeSource ≠ .fromDefaultCountry then
    if fullNumber.length ≤ MIN_LENGTH_FOR_NSN then
      GoResult.panicked
        "Phone number had an IDD, but after this was not long enough to be a viable phone number."
    else if (extractCountryCode fullNumber).1 ≠ 0 then
      GoResult.ok ((extractCountryCode fullNumber).1, (extractCountryCode fullNumber).2,
        { pn with countryCode := some (extractCountryCode fullNumber).1 })
    else GoResult.panicked "Country calling code supplied was not recognised."
  else
    match defaultRegionMetadata with
    | some md =>
      match maybeExtractDefaultCc md fullNumber keepRawInput pn with
      | GoResult.panicked m => GoResult.panicked m
      | GoResult.ok (some r) => GoResult.ok r
      | GoResult.ok none => GoResult.ok (0, [], { pn with countryCode := some 0 })
    | none => GoResult.ok (0, [], { pn with countryCode := some 0 })

/-- Embeds `maybeExtractCountryCode` (lines 2566-2653).  Returns (country
code, what was written into the nationalNumber out-buffer, the updated
PhoneNumber) — or a panic: the code panics both when the number is too
short after an IDD (line 2591) and when the digits after a plus/IDD are not
a recognised country code (line 2603), instead of returning an error. -/
def maybeExtractCountryCode (number : GoStr) (defaultRegionMetadata : Option PhoneMetadata)
    (keepRawInput : Bool) (phoneNumber : PhoneNumber) :
    GoResult (Int × GoStr × PhoneNumber) :=
  if number.length = 0 then GoResult.ok (0, [], phoneNumber)
  else
    match maybeStripInternationalPrefixAndNormalize number
        (iddPatternOf defaultRegionMetadata) with
    | GoResult.panicked m => GoResult.panicked m
    | GoResult.ok (countryCodeSource, fullNumber) =>
      meccAfterStrip countryCodeSource fullNumber defaultRegionMetadata keepRawInput
        (if keepRawInput then
          { phoneNumber with countryCodeSource := some countryCodeSource } else phoneNumber)

/-- Embeds `checkRegionForParsing` (lines 2836-2845). -/
def checkRegionForParsing (numberToParse defaultRegion : GoStr) : Bool :=
  if ¬ isValidRegionCode defaultRegion then
    ¬ (numberToParse.length = 0 ∨ ¬ plusCharsMatch numberToParse)
  else true

/-- The ";isub=" truncation at the end of `buildNationalNumberForParsing`
(lines 3097-3102; only applied at an index > 0). -/
def isubTruncate (nationalNumber : GoStr) : GoStr :=
  match firstIndexOfSub nationalNumber [59, 105, 115, 117, 98, 61] with
  | some i => if i > 0 then nationalNumber.take i else nationalNumber
  | none => nationalNumber

/-- Embeds `buildNationalNumberForParsing` (lines 3053-3108).  In the
phone-context branch the code indexes `numberToParse[phoneContextStart]`
(panics when the context value is empty) and slices
`numberToParse[phoneContextStart:phoneContextEnd]` with phoneContextEnd an
index RELATIVE to the suffix (a slice-bounds panic whenever that relative
index is positive but smaller than phoneContextStart). -/
def buildNationalNumberForParsing (numberToParse : GoStr) : GoResult GoStr :=
  let idxPC := goIndexOf numberToParse [59, 112, 104, 111, 110, 101, 45, 99, 111, 110, 116, 101, 120, 116, 61]
  if idxPC > 0 then
    let phoneContextStart := idxPC.toNat + 15
    match goGet numberToParse phoneContextStart with
    | GoResult.panicked m => GoResult.panicked m
    | GoResult.ok b =>
      let part1 : GoResult GoStr :=
        if b = 43 then
          let phoneContextEnd := goIndexOf (numberToParse.drop phoneContextStart) [59]
          if phoneContextEnd > 0 then
            goSlice numberToParse phoneContextStart phoneContextEnd.toNat
          else GoResult.ok (numberToParse.drop phoneContextStart)
        else GoResult.ok []
      match part1 with
      | GoResult.panicked m => GoResult.panicked m
      | GoResult.ok p1 =>
        let idxTel := goIndexOf numberToParse [116, 101, 108, 58]
        let indexOfNationalNumber := if idxTel ≥ 0 then idxTel.toNat + 4 else 0
        match goSlice numberToParse indexOfNationalNumber idxPC.toNat with
        | GoResult.panicked m => GoResult.panicked m
        | GoResult.ok p2 => GoResult.ok (isubTruncate (p1 ++ p2))
  else GoResult.ok (isubTruncate (extractPossibleNumber numberToParse))

/-- The Go loop of `setItalianLeadingZerosForPhoneNumber`: k starts at 1 and
advances while `k < len(s)-1 && s[k] == '0'`; in closed form 1 plus the
number of '0' bytes at the front of `s[1 : len(s)-1]`. -/
def zerosPrefixLen : GoStr → Nat
  | 48 :: rest => 1 + zerosPrefixLen rest
  | _ => 0

/-- The count of leading zeros the Go loop computes. -/
def countLeadingZeros (s : GoStr) : Nat :=
  1 + zerosPrefixLen ((s.drop 1).take (s.length - 2))

/-- Embeds `setItalianLeadingZerosForPhoneNumber` (lines 2906-2922): Italian
leading zero set when the string has length > 1 and starts with '0'; the
zero count stored only when it differs from 1. -/
def setItalianLeadingZerosForPhoneNumber (nationalNumber : GoStr) (phoneNumber : PhoneNumber) :
    PhoneNumber :=
  if nationalNumber.length > 1 ∧ nationalNumber.head? = some 48 then
    if countLeadingZeros nationalNumber ≠ 1 then
      { phoneNumber with
          italianLeadingZero := some true
          numberOfLeadingZeros := some (countLeadingZeros nationalNumber : Int) }
    else { phoneNumber with italianLeadingZero := some true }
  else phoneNumber

/-- The tail of parseHelper (lines 3034-3045): the final length checks, the
leading-zero fields and the numeric national number. -/
def parseFinish (normalizedNationalNumber : GoStr) (pn : PhoneNumber) : ParseOut :=
  if normalizedNationalNumber.length < MIN_LENGTH_FOR_NSN then ParseOut.err .tooShortNsn
  else if normalizedNationalNumber.length > MAX_LENGTH_FOR_NSN then ParseOut.err .numTooLong
  else
    ParseOut.ok
      { setItalianLeadingZerosForPhoneNumber normalizedNationalNumber pn with
        nationalNumber := some (goParseUint64 normalizedNationalNumber) }

/-- Lines 3013-3033 of parseHelper: the pre-strip length check and the
national-prefix strip (undone when the remainder is shorter than a possible
normal number). -/
def parseStep3 (regionMetadata : Option PhoneMetadata) (normalizedNationalNumber : GoStr)
    (keepRawInput : Bool) (pn : PhoneNumber) : ParseOut :=
  if normalizedNationalNumber.length < MIN_LENGTH_FOR_NSN then ParseOut.err .tooShortNsn
  else
    match regionMetadata with
    | none => parseFinish normalizedNationalNumber pn
    | some md =>
      match maybeStripNationalPrefixAndCarrierCode normalizedNationalNumber md [] with
      | GoResult.panicked m => ParseOut.panicked m
      | GoResult.ok (_, potentialNationalNumber, carrierCode) =>
        if ¬ isShorterThanPossibleNormalNumber md potentialNationalNumber then
          parseFinish potentialNationalNumber
            (if keepRawInput then
              { pn with preferredDomesticCarrierCode := some carrierCode } else pn)
        else parseFinish normalizedNationalNumber pn

/-- Lines 2992-3012 of parseHelper: resolve the region metadata from the
extracted country code, or fall back to the default region's code. -/
def parseStep2 (countryCode : Int) (nationalNumber nnOut : GoStr)
    (regionMetadata0 : Option PhoneMetadata) (defaultRegion : GoStr)
    (keepRawInput : Bool) (pn : PhoneNumber) : ParseOut :=
  if countryCode ≠ 0 then
    parseStep3
      (if getRegionCodeForCountryCode countryCode ≠ defaultRegion then
        getMetadataForRegionOrCallingCode countryCode (getRegionCodeForCountryCode countryCode)
      else regionMetadata0)
      nnOut keepRawInput pn
  else if defaultRegion.length ≠ 0 then
    parseStep3 regionMetadata0 (nnOut ++ normalize nationalNumber) keepRawInput
      { pn with countryCode := some (getCountryCodeOf regionMetadata0) }
  else
    parseStep3 regionMetadata0 (nnOut ++ normalize nationalNumber) keepRawInput
      (if keepRawInput then { pn with countryCodeSource := none } else pn)

/-- The PhoneNumber after the raw-input and extension assignments of
parseHelper (lines 2955-2964). -/
def pnAfterExtension (numberToParse nationalNumber : GoStr) (keepRawInput : Bool)
    (pn : PhoneNumber) : PhoneNumber :=
  if (maybeStripExtension nationalNumber).1.length > 0 then
    { (if keepRawInput then { pn with rawInput := some numberToParse } else pn) with
      extension := some (maybeStripExtension nationalNumber).1 }
  else (if keepRawInput then { pn with rawInput := some numberToParse } else pn)

/-- Embeds `parseHelper` (lines 2931-3046). -/
def parseHelper (numberToParse defaultRegion : GoStr) (keepRawInput checkRegion : Bool)
    (phoneNumber : PhoneNumber) : ParseOut :=
  if numberToParse.length = 0 then ParseOut.err .emptyInput
  else if numberToParse.length > MAX_INPUT_STRING_LENGTH then ParseOut.err .tooLongInput
  else
    match buildNationalNumberForParsing numberToParse with
    | GoResult.panicked m => ParseOut.panicked m
    | GoResult.ok nationalNumber =>
      if ¬ isViablePhoneNumber nationalNumber then ParseOut.err .notANumber
      else if checkRegion ∧ ¬ checkRegionForParsing nationalNumber defaultRegion then
        ParseOut.err .invalidRegion
      else
        match maybeExtractCountryCode (maybeStripExtension nationalNumber).2
            (getMetadataForRegion defaultRegion) keepRawInput
            (pnAfterExtension numberToParse nationalNumber keepRawInput phoneNumber) with
        | GoResult.panicked m => ParseOut.panicked m
        | GoResult.ok (countryCode, nnOut, pn3) =>
          parseStep2 countryCode (maybeStripExtension nationalNumber).2 nnOut
            (getMetadataForRegion defaultRegion) defaultRegion keepRawInput pn3

/-- Embeds `parse` (lines 2852-2862): parseHelper on a fresh PhoneNumber with
keepRawInput = false and checkRegion = true. -/
def parse (numberToParse defaultRegion : GoStr) : ParseOut :=
  parseHelper numberToParse defaultRegion false true PhoneNumber.empty

/-- The normalized NSN string that parseStep3 (parseHelper lines 3013-3033)
hands to the final length-check/leading-zero step: the national-prefix strip
result when the strip is kept, the incoming string otherwise.  Mirrors
parseStep3's string selection, which does not depend on keepRawInput or on
the PhoneNumber being built; `none` on the paths where parseStep3 errs or
panics before that step.  The agreement with parseStep3 on its ok paths is
proved in parseStep3_ok. -/
def parseStep3Nsn (regionMetadata : Option PhoneMetadata)
    (normalizedNationalNumber : GoStr) : Option GoStr :=
  if normalizedNationalNumber.length < MIN_LENGTH_FOR_NSN then none
  else
    match regionMetadata with
    | none => some normalizedNationalNumber
    | some md =>
      match maybeStripNationalPrefixAndCarrierCode normalizedNationalNumber md [] with
      | GoResult.panicked _ => none
      | GoResult.ok (_, potentialNationalNumber, _) =>
        if ¬ isShorterThanPossibleNormalNumber md potentialNationalNumber then
          some potentialNationalNumber
        else some normalizedNationalNumber

/-- The string and metadata parseStep2 (parseHelper lines 2992-3012) passes
on: the country-code extraction remainder when a country code was found,
otherwise the re-normalized national number appended to it.  Mirrors
parseStep2's selection, which does not depend on keepRawInput or on the
PhoneNumber (both zero-country-code branches pass the same string and
metadata); proved to agree with parseStep2 on its ok paths in
parseStep2_ok. -/
def parseStep2Nsn (countryCode : Int) (nationalNumber nnOut : GoStr)
    (regionMetadata0 : Option PhoneMetadata) (defaultRegion : GoStr) : Option GoStr :=
  if countryCode ≠ 0 then
    parseStep3Nsn
      (if getRegionCodeForCountryCode countryCode ≠ defaultRegion then
        getMetadataForRegionOrCallingCode countryCode (getRegionCodeForCountryCode countryCode)
      else regionMetadata0)
      nnOut
  else parseStep3Nsn regionMetadata0 (nnOut ++ normalize nationalNumber)

/-- The normalized national significant number string of a parse: follows
parseHelper (lines 2931-3046) through the same input tests and country-code
extraction and yields the string handed to the final length-check and
leading-zero step, `none` where parseHelper errs or panics before it. -/
def parseHelperNsn (numberToParse defaultRegion : GoStr) (keepRawInput checkRegion : Bool)
    (phoneNumber : PhoneNumber) : Option GoStr :=
  if numberToParse.length = 0 then none
  else if numberToParse.length > MAX_INPUT_STRING_LENGTH then none
  else
    match buildNationalNumberForParsing numberToParse with
    | GoResult.panicked _ => none
    | GoResult.ok nationalNumber =>
      if ¬ isViablePhoneNumber nationalNumber then none
      else if checkRegion ∧ ¬ checkRegionForParsing nationalNumber defaultRegion then none
      else
        match maybeExtractCountryCode (maybeStripExtension nationalNumber).2
            (getMetadataForRegion defaultRegion) keepRawInput
            (pnAfterExtension numberToParse nationalNumber keepRawInput phoneNumber) with
        | GoResult.panicked _ => none
        | GoResult.ok (countryCode, nnOut, _) =>
          parseStep2Nsn countryCode (maybeStripExtension nationalNumber).2 nnOut
            (getMetadataForRegion defaultRegion) defaultRegion

/-- The NSN string of parse: parseHelperNsn at parse's arguments. -/
def parseNsn (numberToParse defaultRegion : GoStr) : Option GoStr :=
  parseHelperNsn numberToParse defaultRegion false true PhoneNumber.empty

/-
Definitions following the SPEC's words, for comparison with the code
(used to state refuted claims); and the concrete inputs of the claims.
-/

/-- The NSN string as the spec words it (spec §4.4 step 2): `"0" *
number_of_leading_zeros` (if `italian_leading_zero`) followed by the DECIMAL
digits of `national_number`. -/
def nsnSpecString (pn : PhoneNumber) : GoStr :=
  (if pn.GetItalianLeadingZero then
    List.replicate pn.GetNumberOfLeadingZeros.toNat 48
  else []) ++ natDigits pn.GetNationalNumber

/-- The E.164 output as the spec words it (spec §4.4 step 3): '+', the
decimal digits of the country code, then the NSN string. -/
def e164SpecString (pn : PhoneNumber) : GoStr :=
  43 :: (natDigits pn.GetCountryCode.toNat ++ nsnSpecString pn)

/-- The pattern selection as claim C4 states it: the first entry whose LAST
leading_digits_pattern prefix-matches the NSN AND whose full pattern matches
the NSN (an entry without leading-digits patterns imposes no prefix
condition). -/
def chooseFormattingPatternSpec (availableFormats : List NumberFormat)
    (nationalNumber : GoStr) : Option NumberFormat :=
  availableFormats.find? fun f =>
    (match f.leadingDigitsPattern.getLast? with
     | some re => re.lookingAt nationalNumber
     | none => true) &&
    (f.pattern.getD reEmpty).matchesFull nationalNumber

/-- "+80012345678": the C1 input. -/
def inC1 : GoStr := [43, 56, 48, 48, 49, 50, 51, 52, 53, 54, 55, 56]

/-- What parse("+80012345678", "ZZ") produces. -/
def pnC1 : PhoneNumber := { countryCode := some 800, nationalNumber := some 12345678 }

/-- A structured number with country code 41 and national number 446681800
(the spec's Swiss example): the C2 input. -/
def pnC2 : PhoneNumber := { countryCode := some 41, nationalNumber := some 446681800 }

/-- "+999123456": the C3 input (999 is a country calling code of no region). -/
def inC3 : GoStr := [43, 57, 57, 57, 49, 50, 51, 52, 53, 54]

/-- The C4 number format entry: full pattern "9", format "X", one
leading-digits pattern "1". -/
def fmtC4 : NumberFormat where
  pattern := some (reLit 57)
  format := [88]
  leadingDigitsPattern := [reLit 49]

/-- Metadata whose national-format list is the single C4 entry. -/
def mdC4 : PhoneMetadata := { mkSimpleMeta strCH 41 with numberFormat := [fmtC4] }

/-- The C4 national significant number "111". -/
def nsnC4 : GoStr := [49, 49, 49]

/-- Metadata with no format entries at all (for the unformatted-fallback
case of C4). -/
def mdC4empty : PhoneMetadata := mkSimpleMeta strCH 41

/-- The C5 input: country code 1, ten stored leading zeros, so that its NSN
string has 18 characters (10 zeros + the eight raw national-number bytes). -/
def pnC5 : PhoneNumber :=
  { countryCode := some 1, nationalNumber := some 1,
    italianLeadingZero := some true, numberOfLeadingZeros := some 10 }

/-- The C6 witness input: a number that is valid under the modelled Swiss
metadata (its NSN string "00" + raw bytes matches the general and fixed-line
patterns). -/
def pnC6 : PhoneNumber :=
  { countryCode := some 41, nationalNumber := some 1,
    italianLeadingZero := some true, numberOfLeadingZeros := some 2 }

/-- "１" (U+FF11, fullwidth digit one) in UTF-8: a C7 input. -/
def inC7a : GoStr := [239, 188, 145]

/-- "١" (U+0661, Arabic-Indic digit one) in UTF-8: a C7 input. -/
def inC7b : GoStr := [217, 161]

/-- "1a2": a C7 input mixing ASCII digits and a letter. -/
def inC7c : GoStr := [49, 97, 50]

/-- The C8 inputs: two numbers with the same country code, one NSN a suffix
of the other. -/
def pnC8a : PhoneNumber := { countryCode := some 41, nationalNumber := some 446681800 }

/-- Second C8 input. -/
def pnC8b : PhoneNumber := { countryCode := some 41, nationalNumber := some 1800 }

/-- The C10 inputs: two equal NANPA numbers carrying fields the matcher is
documented to clear on copies. -/
def pnC10a : PhoneNumber :=
  { countryCode := some 1, nationalNumber := some 6502530000,
    preferredDomesticCarrierCode := some [49] }

/-- Second C10 input. -/
def pnC10b : PhoneNumber := { countryCode := some 1, nationalNumber := some 6502530000 }

end PNU

/-
Helper lemmas.  First the preservation chain through the parser pipeline,
used to establish the leading-zero invariant of every successful parse:
each stage after maybeExtractCountryCode leaves the italianLeadingZero and
numberOfLeadingZeros fields of the number untouched until parseFinish calls
setItalianLeadingZerosForPhoneNumber on them.
-/

namespace PNU

theorem parseStep3_ok (md : Option PhoneMetadata) (nn : GoStr) (kri : Bool)
    (pn pnF : PhoneNumber) (h : parseStep3 md nn kri pn = ParseOut.ok pnF) :
    ∃ s pn', parseStep3Nsn md nn = some s ∧
      pn'.italianLeadingZero = pn.italianLeadingZero ∧
      pn'.numberOfLeadingZeros = pn.numberOfLeadingZeros ∧
      parseFinish s pn' = ParseOut.ok pnF := by
  rw [parseStep3.eq_def] at h
  rw [parseStep3Nsn.eq_def]
  split at h
  · exact ParseOut.noConfusion h
  · rename_i hlen
    rw [if_neg hlen]
    split at h
    · exact ⟨nn, pn, rfl, rfl, rfl, h⟩
    · split at h
      · exact ParseOut.noConfusion h
      · split at h
        · rename_i hns
          rw [if_pos hns]
          refine ⟨_, _, rfl, ?_, ?_, h⟩ <;> cases kri <;> rfl
        · rename_i hns
          rw [if_neg hns]
          exact ⟨nn, pn, rfl, rfl, rfl, h⟩

theorem parseStep2_ok (countryCode : Int) (nationalNumber nnOut : GoStr)
    (rm0 : Option PhoneMetadata) (dr : GoStr) (kri : Bool) (pn pnF : PhoneNumber)
    (h : parseStep2 countryCode nationalNumber nnOut rm0 dr kri pn = ParseOut.ok pnF) :
    ∃ md s pn', parseStep2Nsn countryCode nationalNumber nnOut rm0 dr = parseStep3Nsn md s ∧
      pn'.italianLeadingZero = pn.italianLeadingZero ∧
      pn'.numberOfLeadingZeros = pn.numberOfLeadingZeros ∧
      parseStep3 md s kri pn' = ParseOut.ok pnF := by
  rw [parseStep2.eq_def] at h
  rw [parseStep2Nsn.eq_def]
  split at h
  · rename_i hcc
    rw [if_pos hcc]
    exact ⟨_, _, pn, rfl, rfl, rfl, h⟩
  · rename_i hcc
    rw [if_neg hcc]
    split at h
    · refine ⟨_, _, _, rfl, ?_, ?_, h⟩ <;> rfl
    · refine ⟨_, _, _, rfl, ?_, ?_, h⟩ <;> cases kri <;> rfl

theorem medc_pres (md : PhoneMetadata) (fn : GoStr) (kri : Bool) (pn : PhoneNumber)
    (cc : Int) (out : GoStr) (pn' : PhoneNumber)
    (h : maybeExtractDefaultCc md fn kri pn = GoResult.ok (some (cc, out, pn'))) :
    pn'.italianLeadingZero = pn.italianLeadingZero ∧
      pn'.numberOfLeadingZeros = pn.numberOfLeadingZeros := by
  rw [maybeExtractDefaultCc.eq_def] at h
  split at h
  · split at h
    · exact GoResult.noConfusion h
    · split at h
      · injection h with h4
        injection h4 with h5
        injection h5 with h6 h7
        injection h7 with h8 h9
        subst h9
        cases kri <;> exact ⟨rfl, rfl⟩
      · injection h with h4
        exact absurd h4 (by simp)
  · injection h with h4
    exact absurd h4 (by simp)

theorem meccAfterStrip_pres (ccs : CountryCodeSource) (fn : GoStr)
    (md : Option PhoneMetadata) (kri : Bool) (pn : PhoneNumber)
    (cc : Int) (out : GoStr) (pn' : PhoneNumber)
    (h : meccAfterStrip ccs fn md kri pn = GoResult.ok (cc, out, pn')) :
    pn'.italianLeadingZero = pn.italianLeadingZero ∧
      pn'.numberOfLeadingZeros = pn.numberOfLeadingZeros := by
  rw [meccAfterStrip.eq_def] at h
  split at h
  · split at h
    · exact GoResult.noConfusion h
    · split at h
      · injection h with h4
        injection h4 with h5 h6
        injection h6 with h7 h8
        subst h8
        exact ⟨rfl, rfl⟩
      · exact GoResult.noConfusion h
  · split at h
    · split at h
      · exact GoResult.noConfusion h
      · rename_i heq
        injection h with h4
        subst h4
        exact medc_pres _ _ _ _ _ _ _ heq
      · injection h with h4
        injection h4 with h5 h6
        injection h6 with h7 h8
        subst h8
        exact ⟨rfl, rfl⟩
    · injection h with h4
      injection h4 with h5 h6
      injection h6 with h7 h8
      subst h8
      exact ⟨rfl, rfl⟩

theorem mecc_pres (number : GoStr) (md : Option PhoneMetadata) (kri : Bool)
    (pn : PhoneNumber) (cc : Int) (out : GoStr) (pn' : PhoneNumber)
    (h : maybeExtractCountryCode number md kri pn = GoResult.ok (cc, out, pn')) :
    pn'.italianLeadingZero = pn.italianLeadingZero ∧
      pn'.numberOfLeadingZeros = pn.numberOfLeadingZeros := by
  rw [maybeExtractCountryCode.eq_def] at h
  split at h
  · injection h with h4
    injection h4 with h5 h6
    injection h6 with h7 h8
    subst h8
    exact ⟨rfl, rfl⟩
  · split at h
    · exact GoResult.noConfusion h
    · have := meccAfterStrip_pres _ _ _ _ _ _ _ _ h
      cases kri with
      | true => simpa using this
      | false => simpa using this

theorem pnAfterExtension_fields (ntp nn : GoStr) (kri : Bool) (pn : PhoneNumber) :
    (pnAfterExtension ntp nn kri pn).italianLeadingZero = pn.italianLeadingZero ∧
    (pnAfterExtension ntp nn kri pn).numberOfLeadingZeros = pn.numberOfLeadingZeros := by
  rw [pnAfterExtension.eq_def]
  split <;> cases kri <;> exact ⟨rfl, rfl⟩

theorem setItalian_fields (s : GoStr) (pn : PhoneNumber)
    (hi : pn.italianLeadingZero = none) (hz : pn.numberOfLeadingZeros = none) :
    ((setItalianLeadingZerosForPhoneNumber s pn).GetItalianLeadingZero = true ↔
      (s.length > 1 ∧ s.head? = some 48)) ∧
    ((setItalianLeadingZerosForPhoneNumber s pn).GetItalianLeadingZero = false →
      (setItalianLeadingZerosForPhoneNumber s pn).numberOfLeadingZeros = none) ∧
    (∀ k : Int, (setItalianLeadingZerosForPhoneNumber s pn).numberOfLeadingZeros = some k →
      1 < k ∧ k = (countLeadingZeros s : Int)) ∧
    ((setItalianLeadingZerosForPhoneNumber s pn).GetItalianLeadingZero = true →
      countLeadingZeros s ≠ 1 →
      (setItalianLeadingZerosForPhoneNumber s pn).numberOfLeadingZeros =
        some (countLeadingZeros s : Int)) := by
  rw [setItalianLeadingZerosForPhoneNumber.eq_def]
  by_cases hg : s.length > 1 ∧ s.head? = some 48
  · rw [if_pos hg]
    by_cases hk : countLeadingZeros s ≠ 1
    · rw [if_pos hk]
      refine ⟨?_, ?_, ?_, ?_⟩
      · simp [PhoneNumber.GetItalianLeadingZero, hg]
      · intro hfalse
        simp [PhoneNumber.GetItalianLeadingZero] at hfalse
      · intro k hk2
        simp only [Option.some.injEq] at hk2
        have h1 : countLeadingZeros s ≥ 1 := by unfold countLeadingZeros; omega
        omega
      · intro _ _
        rfl
    · rw [if_neg hk]
      refine ⟨?_, ?_, ?_, ?_⟩
      · simp [PhoneNumber.GetItalianLeadingZero, hg]
      · intro hfalse
        simp [PhoneNumber.GetItalianLeadingZero] at hfalse
      · intro k hk2
        rw [show ({ pn with italianLeadingZero := some true } : PhoneNumber).numberOfLeadingZeros
            = pn.numberOfLeadingZeros from rfl, hz] at hk2
        simp at hk2
      · intro _ hne
        exact absurd (not_not.mp hk) hne
  · rw [if_neg hg]
    refine ⟨?_, ?_, ?_, ?_⟩
    · constructor
      · intro ht
        rw [PhoneNumber.GetItalianLeadingZero, hi] at ht
        simp at ht
      · intro hcond
        exact absurd hcond hg
    · intro _
      exact hz
    · intro k hk2
      rw [hz] at hk2
      simp at hk2
    · intro ht _
      rw [PhoneNumber.GetItalianLeadingZero, hi] at ht
      simp at ht

theorem parseFinish_fields (s : GoStr) (pn pnF : PhoneNumber)
    (hi : pn.italianLeadingZero = none) (hz : pn.numberOfLeadingZeros = none)
    (h : parseFinish s pn = ParseOut.ok pnF) :
    pnF.nationalNumber = some (goParseUint64 s) ∧
    (pnF.GetItalianLeadingZero = true ↔ (s.length > 1 ∧ s.head? = some 48)) ∧
    (pnF.GetItalianLeadingZero = false → pnF.numberOfLeadingZeros = none) ∧
    (∀ k : Int, pnF.numberOfLeadingZeros = some k → 1 < k ∧ k = (countLeadingZeros s : Int)) ∧
    (pnF.GetItalianLeadingZero = true → countLeadingZeros s ≠ 1 →
      pnF.numberOfLeadingZeros = some (countLeadingZeros s : Int)) := by
  rw [parseFinish.eq_def] at h
  split at h
  · exact ParseOut.noConfusion h
  · split at h
    · exact ParseOut.noConfusion h
    · injection h with h3
      obtain ⟨hA, hB, hC, hD⟩ := setItalian_fields s pn hi hz
      subst h3
      exact ⟨rfl, hA, hB, hC, hD⟩

end PNU

/-
Helper lemmas for the registry: coherence between the region chosen by
getRegionCodeForNumber and the metadata that isPossibleNumberWithReason
looks up through getRegionCodeForCountryCode.
-/

namespace PNU

theorem registryCases (cc : Int) :
    cc = 1 ∨ cc = 39 ∨ cc = 41 ∨ cc = 44 ∨ cc = 49 ∨ cc = 800 ∨ CountryCodeToRegion cc = none := by
  by_cases h1 : cc = 1
  · exact Or.inl h1
  by_cases h2 : cc = 39
  · exact Or.inr (Or.inl h2)
  by_cases h3 : cc = 41
  · exact Or.inr (Or.inr (Or.inl h3))
  by_cases h4 : cc = 44
  · exact Or.inr (Or.inr (Or.inr (Or.inl h4)))
  by_cases h5 : cc = 49
  · exact Or.inr (Or.inr (Or.inr (Or.inr (Or.inl h5))))
  by_cases h6 : cc = 800
  · exact Or.inr (Or.inr (Or.inr (Or.inr (Or.inr (Or.inl h6)))))
  refine Or.inr (Or.inr (Or.inr (Or.inr (Or.inr (Or.inr ?_)))))
  unfold CountryCodeToRegion
  rw [if_neg h1, if_neg h2, if_neg h3, if_neg h4, if_neg h5, if_neg h6]

theorem typeHelper_possible (nsn : GoStr) (m : Option PhoneMetadata)
    (h : getNumberTypeHelper nsn m ≠ .UNKNOWN) :
    isNumberPossibleForDesc nsn (getGeneralDesc m) = true := by
  by_cases hmd : isNumberMatchingDesc nsn (getGeneralDesc m) = true
  · unfold isNumberMatchingDesc at hmd
    exact ((Bool.and_eq_true _ _).mp hmd).1
  · exfalso
    apply h
    rw [getNumberTypeHelper.eq_def]
    rw [if_pos (Or.inr hmd)]

theorem fromRegionListNANPA (nsn : GoStr) :
    getRegionCodeForNumberFromRegionList nsn [strUS, strCA] =
      (if getNumberTypeHelper nsn (getMetadataForRegion strUS) ≠ .UNKNOWN then strUS
       else if getNumberTypeHelper nsn (getMetadataForRegion strCA) ≠ .UNKNOWN then strCA
       else []) := rfl

theorem registry_main (N : PhoneNumber) (m : PhoneMetadata)
    (hm : getMetadataForRegionOrCallingCode N.GetCountryCode (getRegionCodeForNumber N) = some m) :
    hasValidCountryCallingCode N.GetCountryCode = true ∧
    getMetadataForRegionOrCallingCode N.GetCountryCode
      (getRegionCodeForCountryCode N.GetCountryCode) = some m := by
  rcases registryCases N.GetCountryCode with h1 | h1 | h1 | h1 | h1 | h1 | h1
  · have hr : getRegionCodeForNumber N =
        getRegionCodeForNumberFromRegionList (getNationalSignificantNumber N) [strUS, strCA] := by
      simp only [getRegionCodeForNumber]
      rw [h1]
      rfl
    rw [hr, fromRegionListNANPA] at hm
    rw [h1] at hm ⊢
    by_cases hU : getNumberTypeHelper (getNationalSignificantNumber N) (getMetadataForRegion strUS) = .UNKNOWN
    · by_cases hC : getNumberTypeHelper (getNationalSignificantNumber N) (getMetadataForRegion strCA) = .UNKNOWN
      · rw [if_neg (by simpa using hU), if_neg (by simpa using hC)] at hm
        exact absurd (show (none : Option PhoneMetadata) = some m from hm) (by simp)
      · rw [if_neg (by simpa using hU), if_pos hC] at hm
        exact ⟨rfl, hm⟩
    · rw [if_pos hU] at hm
      exact ⟨rfl, hm⟩
  · have hr : getRegionCodeForNumber N = strIT := by
      simp only [getRegionCodeForNumber]; rw [h1]; rfl
    rw [hr] at hm; rw [h1] at hm ⊢; exact ⟨rfl, hm⟩
  · have hr : getRegionCodeForNumber N = strCH := by
      simp only [getRegionCodeForNumber]; rw [h1]; rfl
    rw [hr] at hm; rw [h1] at hm ⊢; exact ⟨rfl, hm⟩
  · have hr : getRegionCodeForNumber N = strGB := by
      simp only [getRegionCodeForNumber]; rw [h1]; rfl
    rw [hr] at hm; rw [h1] at hm ⊢; exact ⟨rfl, hm⟩
  · have hr : getRegionCodeForNumber N = strDE := by
      simp only [getRegionCodeForNumber]; rw [h1]; rfl
    rw [hr] at hm; rw [h1] at hm ⊢; exact ⟨rfl, hm⟩
  · have hr : getRegionCodeForNumber N = str001 := by
      simp only [getRegionCodeForNumber]; rw [h1]; rfl
    rw [hr] at hm; rw [h1] at hm
    exact absurd (show (none : Option PhoneMetadata) = some m from hm) (by simp)
  · have hr : getRegionCodeForNumber N = [] := by
      simp only [getRegionCodeForNumber, regionsOf]; rw [h1]; rfl
    rw [hr] at hm
    exact absurd (show (none : Option PhoneMetadata) = some m from hm) (by simp)

theorem isValidNumberForRegion_eq (N : PhoneNumber) (r : GoStr) :
    isValidNumberForRegion N r =
      (if (getMetadataForRegionOrCallingCode N.GetCountryCode r).isNone ∨
          (str001 ≠ r ∧ N.GetCountryCode ≠ GetCountryCodeForValidRegion r) then false
       else if (descNationalPattern (getGeneralDesc
           (getMetadataForRegionOrCallingCode N.GetCountryCode r))).isNone then
         decide ((getNationalSignificantNumber N).length > MIN_LENGTH_FOR_NSN ∧
           (getNationalSignificantNumber N).length ≤ MAX_LENGTH_FOR_NSN)
       else decide (getNumberTypeHelper (getNationalSignificantNumber N)
         (getMetadataForRegionOrCallingCode N.GetCountryCode r) ≠ .UNKNOWN)) := rfl

theorem isPossibleNumberWithReason_eq (N : PhoneNumber) :
    isPossibleNumberWithReason N =
      (if ¬ hasValidCountryCallingCode N.GetCountryCode then .INVALID_COUNTRY_CODE
       else if (descNationalPattern (getGeneralDesc
           (getMetadataForRegionOrCallingCode N.GetCountryCode
             (getRegionCodeForCountryCode N.GetCountryCode)))).isNone then
         (if (getNationalSignificantNumber N).length < MIN_LENGTH_FOR_NSN then .TOO_SHORT
          else if (getNationalSignificantNumber N).length > MAX_LENGTH_FOR_NSN then .TOO_LONG
          else .IS_POSSIBLE)
       else testNumberLengthAgainstPattern
         ((descPossiblePattern (getGeneralDesc
            (getMetadataForRegionOrCallingCode N.GetCountryCode
              (getRegionCodeForCountryCode N.GetCountryCode)))).getD reEmpty)
         (getNationalSignificantNumber N)) := rfl

end PNU

/-
The claims.
-/

namespace PNU

/-- C1: the parse/format round-trip fails.  parse("+80012345678", "ZZ")
succeeds with country code 800 and national number 12345678, but
format(·, E164) renders the national number as the raw big-endian bytes
of the uint64 (getNationalSignificantNumber appends the byte
representation, not decimal digits), so re-parsing its E.164 output with
default region "ZZ" does not return the same number: it fails with
tooShortNsn, because after normalization only the digits "800" survive
and they are consumed as the country code. -/
theorem C1_roundtrip_eval :
    parse inC1 strZZ = ParseOut.ok pnC1 ∧
    format pnC1 .E164 = [43, 56, 48, 48, 0, 0, 0, 0, 0, 188, 97, 78] ∧
    parse (format pnC1 .E164) strZZ = ParseOut.err ParseErr.tooShortNsn :=
  ⟨by decide, by decide, by decide⟩

/-- C2: format(N, E164) is not '+' followed by the decimal digits of the
country code and the decimal NSN, and its length is not
1 + digits(country_code) + len(NSN): for N = {country code 41, national
number 446681800} the output is '+', "41", then the 8 raw big-endian bytes
of the uint64 national number (bytes 0,0,0,0,26,159,210,200), because
getNationalSignificantNumber writes the byte representation instead of
decimal digits. -/
theorem C2_format_e164_eval :
    format pnC2 .E164 = [43, 52, 49, 0, 0, 0, 0, 26, 159, 210, 200] ∧
    format pnC2 .E164 ≠ e164SpecString pnC2 ∧
    (format pnC2 .E164).length ≠
      1 + (natDigits pnC2.GetCountryCode.toNat).length + (nsnSpecString pnC2).length :=
  ⟨by decide, by decide, by decide⟩

/-- C3: an input that begins with a plus sign whose following digits do
not form a known country calling code does not yield the
ErrInvalidCountryCode error value: maybeExtractCountryCode panics with
"Country calling code supplied was not recognised." instead, so the
failure escapes via exceptional control flow rather than a returned
error. -/
theorem C3_parse_invalid_cc_panics :
    parse inC3 strZZ = ParseOut.panicked "Country calling code supplied was not recognised." ∧
    parse inC3 strZZ ≠ ParseOut.err ParseErr.invalidCountryCode :=
  ⟨by decide, by decide⟩

/-- C4 counterexample: a metadata whose single NumberFormat has a full
pattern that does NOT match the NSN "111" but whose last
leading_digits_pattern does match it.  The spec-worded selector
(chooseFormattingPatternSpec: leading-digits prefix-match AND full
pattern match) selects no entry, so per the claim the NSN should be
emitted unformatted; the code nevertheless formats it (output "X"),
because chooseFormattingPatternForNumber never consults the entry's full
pattern. -/
theorem C4_counterexample :
    chooseFormattingPatternSpec (availableFormatsOf (some mdC4) .NATIONAL) nsnC4 = none ∧
    formatNsnWithCarrier nsnC4 (some mdC4) .NATIONAL [] = [88] ∧
    formatNsnWithCarrier nsnC4 (some mdC4) .NATIONAL [] ≠ nsnC4 :=
  ⟨rfl, rfl, by decide⟩

/-- C4 amended: the formatter walks the NumberFormat list in order,
skipping entries with no leading_digits_pattern, and selects the first
entry whose LAST leading_digits_pattern matches the NSN (an unanchored
regexp search; the entry's full pattern is never consulted); when no
entry is selected the NSN is emitted unformatted.  Stated as: the
selector equals List.find? with exactly that predicate, and when the
selector finds nothing formatNsnWithCarrier returns the NSN unchanged. -/
theorem C4_amended (formats : List NumberFormat) (nsn : GoStr)
    (metadata : Option PhoneMetadata) (numberFormat : PhoneNumberFormat) (carrier : GoStr)
    (h : chooseFormattingPatternForNumber (availableFormatsOf metadata numberFormat) nsn = none) :
    chooseFormattingPatternForNumber formats nsn =
      formats.find? (fun f =>
        !f.leadingDigitsPattern.isEmpty &&
          ((f.leadingDigitsPattern.getLast?.map (·.matchString nsn)).getD false)) ∧
    formatNsnWithCarrier nsn metadata numberFormat carrier = nsn := by
  constructor
  · induction formats with
    | nil => rfl
    | cons f rest ih =>
      unfold chooseFormattingPatternForNumber
      by_cases h0 : f.leadingDigitsPattern.length = 0
      · have he : f.leadingDigitsPattern.isEmpty = true := by
          cases hl : f.leadingDigitsPattern
          · rfl
          · rw [hl] at h0; simp at h0
        simp [h0, he, List.find?, ih]
      · have he : f.leadingDigitsPattern.isEmpty = false := by
          cases hl : f.leadingDigitsPattern
          · rw [hl] at h0; simp at h0
          · rfl
        match hlast : f.leadingDigitsPattern.getLast? with
        | some reg =>
          by_cases hm : reg.matchString nsn
          · simp [h0, hlast, hm, List.find?, he]
          · simp [h0, hlast, hm, List.find?, he, ih]
        | none =>
          simp [h0, hlast, List.find?, he, ih]
  · unfold formatNsnWithCarrier
    rw [h]

/-- C4 witness: the amended statement applied to the one-entry list
[fmtC4] and the NSN "111" with empty metadata formats. -/
theorem C4_witness :
    chooseFormattingPatternForNumber (availableFormatsOf (some mdC4empty) .NATIONAL) nsnC4 = none ∧
    (chooseFormattingPatternForNumber [fmtC4] nsnC4 =
      [fmtC4].find? (fun f =>
        !f.leadingDigitsPattern.isEmpty &&
          ((f.leadingDigitsPattern.getLast?.map (·.matchString nsnC4)).getD false)) ∧
     formatNsnWithCarrier nsnC4 (some mdC4empty) .NATIONAL [] = nsnC4) :=
  ⟨rfl, C4_amended [fmtC4] nsnC4 (some mdC4empty) .NATIONAL [] rfl⟩

/-- C5: the TOO_LONG verdict is unreachable.  For a number whose NSN
string has length 18 (longer than the metadata allows, and than
MAX_LENGTH_FOR_NSN = 17), isPossibleNumberWithReason returns IS_POSSIBLE,
not TOO_LONG: testNumberLengthAgainstPattern only distinguishes match
(IS_POSSIBLE) from no-match (TOO_SHORT) and never returns TOO_LONG,
contrary to its own doc comment; moreover the NSN string itself is the
raw-byte rendering of the uint64, not its decimal digits. -/
theorem C5_possible_eval :
    (getNationalSignificantNumber pnC5).length = 18 ∧
    isPossibleNumberWithReason pnC5 = ValidationResult.IS_POSSIBLE ∧
    isPossibleNumberWithReason pnC5 ≠ ValidationResult.TOO_LONG ∧
    testNumberLengthAgainstPattern reDigits2to17 (getNationalSignificantNumber pnC5) ≠
      ValidationResult.TOO_LONG :=
  ⟨by decide, by decide, by decide, by decide⟩

/-- C6: validity implies possibility.  If isValidNumber N = true then
the metadata looked up via getRegionCodeForNumber is the same metadata
isPossibleNumberWithReason reaches via getRegionCodeForCountryCode
(registry coherence), the general-desc national pattern matched for
validity also satisfies the possible-number test, and in the
no-national-pattern branch the length bounds agree; hence
isPossibleNumber N = true. -/
theorem C6_valid_implies_possible (N : PhoneNumber) (h : isValidNumber N = true) :
    isPossibleNumber N = true := by
  unfold isValidNumber at h
  rw [isValidNumberForRegion_eq] at h
  by_cases hC : (getMetadataForRegionOrCallingCode N.GetCountryCode (getRegionCodeForNumber N)).isNone ∨
      (str001 ≠ getRegionCodeForNumber N ∧
        N.GetCountryCode ≠ GetCountryCodeForValidRegion (getRegionCodeForNumber N))
  · rw [if_pos hC] at h
    exact absurd h (by simp)
  · rw [if_neg hC] at h
    have hsome : ¬ (getMetadataForRegionOrCallingCode N.GetCountryCode
        (getRegionCodeForNumber N)).isNone = true := fun hh => hC (Or.inl hh)
    obtain ⟨m, hm⟩ : ∃ m, getMetadataForRegionOrCallingCode N.GetCountryCode
        (getRegionCodeForNumber N) = some m := by
      cases hmm : getMetadataForRegionOrCallingCode N.GetCountryCode (getRegionCodeForNumber N) with
      | none => exact absurd (by rw [hmm]; rfl) hsome
      | some m => exact ⟨m, rfl⟩
    obtain ⟨hvalidcc, hmain⟩ := registry_main N m hm
    rw [hm] at h
    unfold isPossibleNumber
    rw [decide_eq_true_eq, isPossibleNumberWithReason_eq, hmain,
      if_neg (not_not_intro hvalidcc)]
    by_cases hnat : (descNationalPattern (getGeneralDesc (some m))).isNone
    · rw [if_pos hnat] at h ⊢
      have hb := of_decide_eq_true h
      rw [if_neg (by omega), if_neg (by omega)]
    · rw [if_neg hnat] at h ⊢
      have ht := of_decide_eq_true h
      have hp := typeHelper_possible (getNationalSignificantNumber N) (some m) ht
      unfold isNumberPossibleForDesc at hp
      unfold testNumberLengthAgainstPattern
      rw [if_pos hp]

/-- C6 witness: the Swiss number pnC6 is valid, and the theorem applied
to it shows it is possible. -/
theorem C6_witness : isValidNumber pnC6 = true ∧ isPossibleNumber pnC6 = true :=
  ⟨by decide, C6_valid_implies_possible pnC6 (by decide)⟩

/-- C7: normalizeDigitsOnly does not keep characters whose Unicode
decimal-digit value is defined: it filters BYTES, keeping only ASCII
'0'-'9', so the fullwidth digit '１' (U+FF11) and the Arabic-Indic digit
'١' (U+0661) are dropped entirely (empty output) instead of being mapped
to "1", while mixed ASCII input "1a2" keeps "12". -/
theorem C7_normalize_digits_eval :
    normalizeDigitsOnly inC7a = [] ∧ normalizeDigitsOnly inC7b = [] ∧
    normalizeDigitsOnly inC7c = [49, 50] :=
  ⟨by decide, by decide, by decide⟩

/-- C8: the matcher never returns a MatchType at all, in either argument
order: isNumberMatchWithNumbers calls proto.Merge with freshly declared
nil destination pointers, which panics "proto: nil destination" before
any comparison, so symmetry of the returned MatchType is vacuous — there
is no returned MatchType. -/
theorem C8_match_panics :
    isNumberMatchWithNumbers pnC8a pnC8b = GoResult.panicked "proto: nil destination" ∧
    isNumberMatchWithNumbers pnC8b pnC8a = GoResult.panicked "proto: nil destination" :=
  ⟨by decide, by decide⟩

/-- C9: the leading-zero invariant of every successful parse, stated
against the parse's own normalized NSN string.  parseNsn recomputes
exactly the string parseHelper hands to its final length-check and
leading-zero step (their agreement on the ok path is part of the proof,
through parseStep2_ok and parseStep3_ok).  Every PhoneNumber produced by
parse carries the national number parsed from that string; its
GetItalianLeadingZero is true exactly when the string has length > 1 and
begins with '0'; numberOfLeadingZeros is unset whenever
GetItalianLeadingZero is false; numberOfLeadingZeros is stored only when
the leading-zero count (computed by the loop that skips the first
character and stops before the last, so a trailing all-zeros final digit
is not counted) exceeds one, and then the stored value equals that
count; and conversely the count is stored whenever the zero flag is set
and the count differs from one. -/
theorem C9_parse_leading_zero_invariant (numberToParse defaultRegion : GoStr)
    (pn : PhoneNumber) (h : parse numberToParse defaultRegion = ParseOut.ok pn) :
    ∃ s : GoStr, parseNsn numberToParse defaultRegion = some s ∧
      pn.nationalNumber = some (goParseUint64 s) ∧
      (pn.GetItalianLeadingZero = true ↔ (s.length > 1 ∧ s.head? = some 48)) ∧
      (pn.GetItalianLeadingZero = false → pn.numberOfLeadingZeros = none) ∧
      (∀ k : Int, pn.numberOfLeadingZeros = some k → 1 < k ∧ k = (countLeadingZeros s : Int)) ∧
      (pn.GetItalianLeadingZero = true → countLeadingZeros s ≠ 1 →
        pn.numberOfLeadingZeros = some (countLeadingZeros s : Int)) := by
  unfold parse at h
  unfold parseNsn
  rw [parseHelper.eq_def] at h
  rw [parseHelperNsn.eq_def]
  split at h
  · exact ParseOut.noConfusion h
  · rename_i h1
    rw [if_neg h1]
    split at h
    · exact ParseOut.noConfusion h
    · rename_i h2
      rw [if_neg h2]
      split at h
      · exact ParseOut.noConfusion h
      · split at h
        · exact ParseOut.noConfusion h
        · rename_i h3
          rw [if_neg h3]
          split at h
          · exact ParseOut.noConfusion h
          · rename_i h4
            rw [if_neg h4]
            split at h
            · exact ParseOut.noConfusion h
            · rename_i heq2
              have hf := mecc_pres _ _ _ _ _ _ _ heq2
              obtain ⟨md2, s2, pn4, hm2, hi4, hz4, h5⟩ := parseStep2_ok _ _ _ _ _ _ _ _ h
              obtain ⟨s5, pn5, hm3, hi5, hz5, h6⟩ := parseStep3_ok _ _ _ _ _ h5
              have hi : pn5.italianLeadingZero = none := by
                rw [hi5, hi4, hf.1, (pnAfterExtension_fields _ _ _ _).1]
                rfl
              have hz : pn5.numberOfLeadingZeros = none := by
                rw [hz5, hz4, hf.2, (pnAfterExtension_fields _ _ _ _).2]
                rfl
              obtain ⟨hA, hB, hC, hD, hE⟩ := parseFinish_fields s5 pn5 pn hi hz h6
              exact ⟨s5, hm2.trans hm3, hA, hB, hC, hD, hE⟩

/-- C9 witness: parse("+80012345678", "ZZ") succeeds with pnC1, and the
invariant holds for that parse. -/
theorem C9_witness : parse inC1 strZZ = ParseOut.ok pnC1 ∧
    (∃ s : GoStr, parseNsn inC1 strZZ = some s ∧
      pnC1.nationalNumber = some (goParseUint64 s) ∧
      (pnC1.GetItalianLeadingZero = true ↔ (s.length > 1 ∧ s.head? = some 48)) ∧
      (pnC1.GetItalianLeadingZero = false → pnC1.numberOfLeadingZeros = none) ∧
      (∀ k : Int, pnC1.numberOfLeadingZeros = some k →
        1 < k ∧ k = (countLeadingZeros s : Int)) ∧
      (pnC1.GetItalianLeadingZero = true → countLeadingZeros s ≠ 1 →
        pnC1.numberOfLeadingZeros = some (countLeadingZeros s : Int))) :=
  ⟨by decide, C9_parse_leading_zero_invariant inC1 strZZ pnC1 (by decide)⟩

/-- C10: the matcher does not return a MatchType verdict without
modifying its arguments, because it never returns a verdict at all: the
"copies" are nil pointers, proto.Merge into them panics "proto: nil
destination", and the function aborts before any comparison. -/
theorem C10_match_frame_eval :
    isNumberMatchWithNumbers pnC10a pnC10b = GoResult.panicked "proto: nil destination" := by
  decide

end PNU
